import Mathlib

/-!
Verification of the duty-backup-app repository against its specification.

The Python source under src/ is shallowly embedded: pure string and list
manipulation is translated function by function; effectful boundaries
(HTTP requests, HTML soup queries, file system, object storage) appear as
explicit environment records whose fields hold the parsed outcome of the
corresponding external call, and exceptions are modelled with Option or
Except values.  Machine floats are modelled by exact rationals; all
numeric strings in play are short decimal literals, for which the two
agree on the comparisons the code performs.
-/

/-- Python exception kinds that the embedded code can raise or catch. -/
inductive PyErr
  | typeError
  | valueError
  | runtimeError
deriving DecidableEq, Repr

/-- The Python regex class backslash-s over the characters that can occur
in the parsed text. -/
def pyIsSpace (c : Char) : Bool :=
  c = ' ' || c = '\t' || c = '\n' || c = '\r' || c = '\x0b' || c = '\x0c'

/-- Python str.strip with no argument: drop whitespace from both ends. -/
def pyStrip (s : String) : String :=
  ⟨((s.toList.dropWhile pyIsSpace).reverse.dropWhile pyIsSpace).reverse⟩

/-- Python lowercase conversion restricted to ASCII, which is all the
embedded strings contain. -/
def pyLower (s : String) : String :=
  ⟨s.toList.map Char.toLower⟩

/-- Does the first character list lead the second one? -/
def leadsWith : List Char → List Char → Bool
  | [], _ => true
  | _ :: _, [] => false
  | a :: as, b :: bs => a = b && leadsWith as bs

/-- Does the needle occur contiguously inside the haystack? -/
def occursInChars (needle : List Char) : List Char → Bool
  | [] => leadsWith needle []
  | b :: bs => leadsWith needle (b :: bs) || occursInChars needle bs

/-- Python substring membership test, needle in haystack. -/
def strContains (hay needle : String) : Bool :=
  occursInChars needle.toList hay.toList

/-- The decimal digits of a string, in order (Python digit filtering via
ch.isdigit over the ASCII inputs in play). -/
def digitsOf (s : String) : List Char :=
  s.toList.filter Char.isDigit

/-- Number of decimal digits in a string. -/
def digitCount (s : String) : Nat :=
  (digitsOf s).length

/-- Helper for `hasRun11`: does the character list contain a run of at
least `need` consecutive digits, given `cur` digits already seen? -/
def hasDigitRunAux (need : Nat) : Nat → List Char → Bool
  | cur, [] => need ≤ cur
  | cur, c :: cs =>
    if need ≤ cur then true
    else if c.isDigit then hasDigitRunAux need (cur + 1) cs
    else hasDigitRunAux need 0 cs

/-- Python re.search of eleven consecutive digits. -/
def hasRun11 (s : String) : Bool :=
  hasDigitRunAux 11 0 s.toList

/-- Numeric value of a list of digit characters. -/
def natOfDigits (ds : List Char) : Nat :=
  ds.foldl (fun a c => a * 10 + (c.toNat - 48)) 0

/-- Python int(str): optional surrounding whitespace, optional sign,
then one or more decimal digits.  none models a ValueError. -/
def pyInt (s : String) : Option Int :=
  let cs := (pyStrip s).toList
  let (sgn, cs) : Int × List Char :=
    match cs with
    | '+' :: r => (1, r)
    | '-' :: r => (-1, r)
    | _ => (1, cs)
  if cs ≠ [] && cs.all Char.isDigit then some (sgn * natOfDigits cs) else none

/-- Python float(str) on an already-stripped string, with the value
modelled as an exact rational: optional sign, integer digits, optional
fractional part, optional exponent.  none models a ValueError.  The
value sign * digits * 10^(exp - fraction-length) is assembled through
mkRat so that it evaluates by kernel reduction. -/
def pyFloat (s : String) : Option ℚ :=
  let cs := s.toList
  let (sgn, cs) : Int × List Char :=
    match cs with
    | '+' :: r => (1, r)
    | '-' :: r => (-1, r)
    | _ => (1, cs)
  let ip := cs.takeWhile Char.isDigit
  let cs := cs.dropWhile Char.isDigit
  let (fp, cs) : List Char × List Char :=
    match cs with
    | '.' :: r => (r.takeWhile Char.isDigit, r.dropWhile Char.isDigit)
    | _ => ([], cs)
  if ip = [] ∧ fp = [] then none
  else
    let mant : Int := natOfDigits (ip ++ fp)
    let finish : Int → Option ℚ := fun e10 =>
      if 0 ≤ e10 then some (mkRat (sgn * mant * (10 : Int) ^ e10.toNat) 1)
      else some (mkRat (sgn * mant) ((10 : Nat) ^ (-e10).toNat))
    match cs with
    | [] => finish (-(fp.length : Int))
    | 'e' :: r | 'E' :: r =>
      let (esgn, r) : Int × List Char :=
        match r with
        | '+' :: r2 => (1, r2)
        | '-' :: r2 => (-1, r2)
        | _ => (1, r)
      if r ≠ [] && r.all Char.isDigit then
        finish (esgn * natOfDigits r - (fp.length : Int))
      else none
    | _ => none

/-- Two-digit zero padding. -/
def pad2 (n : Nat) : String :=
  if n < 10 then "0" ++ toString n else toString n

/-- Python format spec .2f applied to a (rational-modelled) float: the
value times 100 is rounded to the nearest integer, ties to even, by
integer arithmetic on the reduced numerator and denominator. -/
def fmt2 (q : ℚ) : String :=
  let n : Int := q.num * 100
  let d : Int := (q.den : Int)
  let f : Int := n.fdiv d
  let rem : Int := n - f * d
  let r : Int :=
    if 2 * rem < d then f
    else if 2 * rem > d then f + 1
    else if f % 2 = 0 then f else f + 1
  let a := r.natAbs
  (if r < 0 then "-" else "") ++ toString (a / 100) ++ "." ++ pad2 (a % 100)

/-- The tolerance test abs(x - y) <= 0.01 on exact rationals, computed
by cross multiplication of the reduced fractions (the denominators are
positive, so this is equivalent to the rational inequality; see
absDiffLeCenti_iff). -/
def absDiffLeCenti (a b : ℚ) : Bool :=
  (a.num * (b.den : Int) - b.num * (a.den : Int)).natAbs * 100 ≤ a.den * b.den

/-- Gregorian civil date (year, month, day) from a day count relative to
1970-01-01, following the standard era-based algorithm. -/
def civilFromDays (z0 : Int) : Int × Nat × Nat :=
  let z := z0 + 719468
  let era := (if 0 ≤ z then z else z - 146096) / 146097
  let doe := (z - era * 146097).toNat
  let yoe := (doe - doe / 1460 + doe / 36524 - doe / 146096) / 365
  let y : Int := (yoe : Int) + era * 400
  let doy := doe - (365 * yoe + yoe / 4 - yoe / 100)
  let mp := (5 * doy + 2) / 153
  let d := doy - (153 * mp + 2) / 5 + 1
  let m := if mp < 10 then mp + 3 else mp - 9
  ((if m ≤ 2 then y + 1 else y), m, d)

/-- Python strftime with format m-m-d-d-y-y (no separators), at day
granularity. -/
def strftimeMMDDYY (day : Int) : String :=
  let (y, m, d) := civilFromDays day
  pad2 m ++ pad2 d ++ pad2 (y % 100).toNat

/-- Python strftime with format mm/dd/yy, at day granularity. -/
def strftimeMMDDYYSlash (day : Int) : String :=
  let (y, m, d) := civilFromDays day
  pad2 m ++ "/" ++ pad2 d ++ "/" ++ pad2 (y % 100).toNat

/-- A Python dict from string keys to string values, modelled as an
insertion-ordered association list (first binding of a key is the live
one; `setKey` overwrites in place or appends). -/
abbrev Summary := List (String × String)

/-- Python dict.get(key): the value of the first binding of the key, if
present (the summaries in play never bind a key twice). -/
def Summary.getKey? : Summary → String → Option String
  | [], _ => none
  | p :: rest, k => if p.1 = k then some p.2 else getKey? rest k

/-- Python dict item assignment: overwrite the binding in place, else
append a new one at the end, preserving insertion order. -/
def Summary.setKey : Summary → String → String → Summary
  | [], k, v => [(k, v)]
  | p :: rest, k, v => if p.1 = k then (k, v) :: rest else p :: setKey rest k v

/-- Python dict.update with the bindings of another mapping, in order. -/
def Summary.updateAll (s : Summary) (kvs : List (String × String)) : Summary :=
  kvs.foldl (fun acc kv => acc.setKey kv.1 kv.2) s

/-- Python truthiness of an optional string field followed by
`or None` style normalization: empty strings become absent. -/
def orNone (s : String) : Option String :=
  if s = "" then none else some s

/-- Python str.split(sep) for a single-character separator, at the
character-list level: empty pieces between consecutive separators are
kept, and the empty input yields one empty piece. -/
def splitChar (sep : Char) : List Char → List (List Char)
  | [] => [[]]
  | c :: cs =>
    if c = sep then [] :: splitChar sep cs
    else
      match splitChar sep cs with
      | g :: gs => (c :: g) :: gs
      | [] => [[c]]

/-- Python str.split(sep) for a single-character separator. -/
def splitCharStr (sep : Char) (s : String) : List String :=
  (splitChar sep s.toList).map (fun cs => ⟨cs⟩)

/-- Python sep.join for a single-character separator, at the
character-list level. -/
def joinParts (sep : Char) : List (List Char) → List Char
  | [] => []
  | [g] => g
  | g :: g2 :: rest => g ++ sep :: joinParts sep (g2 :: rest)

/-- Python sep.join(parts) for a single-character separator. -/
def joinChar (sep : Char) (parts : List String) : String :=
  ⟨joinParts sep (parts.map String.toList)⟩

/-- Python membership test of a character in a string. -/
def strHasChar (s : String) (c : Char) : Bool :=
  s.toList.contains c

/-- Python str.replace(c, "") for a single-character pattern: drop every
occurrence of the character. -/
def stripCharStr (c : Char) (s : String) : String :=
  ⟨s.toList.filter (· ≠ c)⟩

/-- One parsed batch item, src/service/netchb_duty/input_parser.py lines
187-193 and src/utils/mawb_parser.py lines 400-406.  The Python dict
always carries mawb, airport_code and customer (the latter two possibly
None); checkbook_hawbs is present only when set, modelled as none when
absent. -/
structure MawbItem where
  mawb : String
  airport_code : Option String
  customer : Option String
  checkbook_hawbs : Option String
deriving DecidableEq, Repr

/-! ## src/service/netchb_duty/input_parser.py -/

namespace InputParser

/-- normalize_mawb, input_parser.py lines 9-25: keep the digits and
require exactly eleven of them, else raise ValueError. -/
def normalize_mawb (mawb : String) : Except PyErr String :=
  let ds := digitsOf mawb
  if ds.length ≠ 11 then .error .valueError else .ok ⟨ds⟩

/-- The per-line format detection of parse_mawb_input, input_parser.py
lines 55-182.  none models the bare `continue`; otherwise the tuple is
(mawb_raw, airport_code, customer, checkbook_hawbs), with mawb_raw = none
modelling the Python variable being None when the five-column check at
line 64 fails (line 71). -/
def parseLine (line : String) :
    Option (Option String × Option String × Option String × Option String) :=
  if strHasChar line '\t' then
    let parts := (splitCharStr '\t' line).map pyStrip
    if parts.length ≥ 5 then
      let mawbRaw := parts.getD 4 ""
      if hasRun11 mawbRaw then
        some (some mawbRaw, orNone (parts.getD 0 ""), orNone (parts.getD 1 ""),
          orNone (parts.getD 3 ""))
      else
        some (none, none, none, none)
    else if parts.length ≥ 3 then
      some (some (parts.getD 2 ""), orNone (parts.getD 0 ""), orNone (parts.getD 1 ""), none)
    else if parts.length = 2 then
      let p0 := parts.getD 0 ""
      let p1 := parts.getD 1 ""
      if hasRun11 p0 then
        some (some p0, if p1 ≠ "" ∧ ¬hasRun11 p1 then some p1 else none, none, none)
      else if hasRun11 p1 then
        some (some p1, if p0 ≠ "" ∧ ¬hasRun11 p0 then some p0 else none, none, none)
      else none
    else
      some (some (parts.getD 0 ""), none, none, none)
  else if strHasChar line ',' then
    let parts := (splitCharStr ',' line).map pyStrip
    if parts.length ≥ 5 then
      let mawbRaw := parts.getD 4 ""
      if hasRun11 mawbRaw then
        some (some mawbRaw, orNone (parts.getD 0 ""), orNone (parts.getD 1 ""),
          orNone (parts.getD 3 ""))
      else
        some (none, none, none, none)
    else if parts.length ≥ 3 then
      some (some (parts.getD 2 ""), orNone (parts.getD 0 ""), orNone (parts.getD 1 ""), none)
    else if parts.length = 2 then
      let p0 := parts.getD 0 ""
      let p1 := parts.getD 1 ""
      if hasRun11 p0 then
        some (some p0, if p1 ≠ "" ∧ ¬hasRun11 p1 then some p1 else none, none, none)
      else if hasRun11 p1 then
        some (some p1, if p0 ≠ "" ∧ ¬hasRun11 p0 then some p0 else none, none, none)
      else none
    else
      some (some (parts.getD 0 ""), none, none, none)
  else if hasTwoWs line || (line.toList.count ' ' ≥ 2) then
    let parts := (splitWs line).map pyStrip
    match parts.findIdx? hasRun11 with
    | some idx =>
      let mawbRaw := parts.getD idx ""
      if parts.length ≥ 5 ∧ idx = 4 then
        some (some mawbRaw, orNone (parts.getD 0 ""), orNone (parts.getD 1 ""),
          orNone (parts.getD 3 ""))
      else
        let before := parts.take idx
        if before.length ≥ 2 then
          some (some mawbRaw, orNone (before.getD 0 ""), orNone (before.getD 1 ""), none)
        else if before.length = 1 then
          some (some mawbRaw, orNone (before.getD 0 ""), none, none)
        else
          some (some mawbRaw, none, none, none)
    | none =>
      some (some (parts.getD 0 ""),
        if parts.length > 1 then some (parts.getD 1 "") else none,
        if parts.length > 2 then some (parts.getD 2 "") else none, none)
  else
    some (some line, none, none, none)
where
  /-- re.search of two consecutive whitespace characters. -/
  hasTwoWs (s : String) : Bool :=
    (s.toList.zip s.toList.tail).any (fun p => pyIsSpace p.1 && pyIsSpace p.2)
  /-- re.split on whitespace runs; on a stripped line this yields the
  non-empty tokens. -/
  splitWs (s : String) : List String :=
    ((s.toList.splitOnP pyIsSpace).filter (· ≠ [])).map (⟨·⟩)

/-- Item construction, input_parser.py lines 186-194: normalize the raw
MAWB, apply truthiness to airport_code and customer, include
checkbook_hawbs only when not None. -/
def buildItem (m : String) (a c cb : Option String) : MawbItem :=
  { mawb := m
    airport_code := a.bind orNone
    customer := c.bind orNone
    checkbook_hawbs := cb }

/-- The main loop of parse_mawb_input, input_parser.py lines 50-197.
Crucially, when a line reaches normalization with mawb_raw = None the
call normalize_mawb(None) iterates over None and raises TypeError, which
the `except ValueError` clause at line 195 does not catch. -/
def runLines : List String → Except PyErr (List MawbItem)
  | [] => .ok []
  | l :: ls =>
    let line := pyStrip l
    if line = "" then runLines ls
    else
      match parseLine line with
      | none => runLines ls
      | some (mawbRaw, a, c, cb) =>
        match mawbRaw with
        | none => .error .typeError
        | some raw =>
          match normalize_mawb raw with
          | .error _ => runLines ls
          | .ok m => (runLines ls).map (fun rest => buildItem m a c cb :: rest)

/-- parse_mawb_input, input_parser.py lines 28-199. -/
def parse_mawb_input (text : String) : Except PyErr (List MawbItem) :=
  if pyStrip text = "" then .ok []
  else runLines (splitCharStr '\n' (pyStrip text))

end InputParser

/-! ## src/utils/mawb_parser.py -/

namespace MawbParser

/-- normalize_mawb, mawb_parser.py lines 12-28 (identical to the
netchb_duty variant). -/
def normalize_mawb (mawb : String) : Except PyErr String :=
  let ds := digitsOf mawb
  if ds.length ≠ 11 then .error .valueError else .ok ⟨ds⟩

/-- The per-line format detection of parse_mawb_input, mawb_parser.py
lines 189-392.  Unlike input_parser.py this file tests columns with the
digit-extract count (len of the digit filter) rather than a consecutive
digit run, and its five-column failure branch nulls all locals so the
None guard at line 395 can skip the line. -/
def parseLine (line : String) :
    Option (Option String × Option String × Option String × Option String) :=
  if strHasChar line '\t' then
    let parts := (splitCharStr '\t' line).map pyStrip
    if parts.length ≥ 5 then
      let mawbRaw := parts.getD 4 ""
      if digitCount mawbRaw = 11 then
        some (some mawbRaw, orNone (parts.getD 0 ""), orNone (parts.getD 1 ""),
          orNone (parts.getD 3 ""))
      else
        some (none, none, none, none)
    else if parts.length ≥ 3 then
      some (some (parts.getD 2 ""), orNone (parts.getD 0 ""), orNone (parts.getD 1 ""), none)
    else if parts.length = 2 then
      let p0 := parts.getD 0 ""
      let p1 := parts.getD 1 ""
      if digitCount p0 = 11 then
        some (some p0, if p1 ≠ "" ∧ digitCount p1 ≠ 11 then some p1 else none, none, none)
      else if digitCount p1 = 11 then
        some (some p1, if p0 ≠ "" ∧ digitCount p0 ≠ 11 then some p0 else none, none, none)
      else none
    else
      some (some (parts.getD 0 ""), none, none, none)
  else if strHasChar line ',' then
    let parts := (splitCharStr ',' line).map pyStrip
    if parts.length ≥ 5 then
      let mawbRaw := parts.getD 4 ""
      if digitCount mawbRaw = 11 then
        some (some mawbRaw, orNone (parts.getD 0 ""), orNone (parts.getD 1 ""),
          orNone (parts.getD 3 ""))
      else
        some (none, none, none, none)
    else if parts.length ≥ 3 then
      some (some (parts.getD 2 ""), orNone (parts.getD 0 ""), orNone (parts.getD 1 ""), none)
    else if parts.length = 2 then
      let p0 := parts.getD 0 ""
      let p1 := parts.getD 1 ""
      if digitCount p0 = 11 then
        some (some p0, if p1 ≠ "" ∧ digitCount p1 ≠ 11 then some p1 else none, none, none)
      else if digitCount p1 = 11 then
        some (some p1, if p0 ≠ "" ∧ digitCount p0 ≠ 11 then some p0 else none, none, none)
      else none
    else
      some (some (parts.getD 0 ""), none, none, none)
  else if hasTwoWs line || (line.toList.count ' ' ≥ 2) then
    let parts := (splitWs line).map pyStrip
    match parts.findIdx? (fun p => digitCount p = 11) with
    | some idx =>
      let mawbRaw := parts.getD idx ""
      if parts.length ≥ 5 ∧ idx = 4 then
        some (some mawbRaw, orNone (parts.getD 0 ""), orNone (parts.getD 1 ""),
          orNone (parts.getD 3 ""))
      else
        let before := parts.take idx
        if before.length ≥ 2 then
          some (some mawbRaw, orNone (before.getD 0 ""), orNone (before.getD 1 ""), none)
        else if before.length = 1 then
          some (some mawbRaw, orNone (before.getD 0 ""), none, none)
        else
          some (some mawbRaw, none, none, none)
    | none =>
      some (some (parts.getD 0 ""),
        if parts.length > 1 then some (parts.getD 1 "") else none,
        if parts.length > 2 then some (parts.getD 2 "") else none, none)
  else
    some (some line, none, none, none)
where
  hasTwoWs (s : String) : Bool :=
    (s.toList.zip s.toList.tail).any (fun p => pyIsSpace p.1 && pyIsSpace p.2)
  splitWs (s : String) : List String :=
    ((s.toList.splitOnP pyIsSpace).filter (· ≠ [])).map (⟨·⟩)

/-- The scan-ahead of the reconstruction loop, mawb_parser.py lines
120-139: over the next min(10, remaining) lines, the first index whose
digit-extract has length 11 and which lies at least two lines ahead. -/
def scanFind (ls : List String) : Option Nat :=
  (List.range (min 10 ls.length)).find?
    (fun k => decide (2 ≤ k) && decide (digitCount (ls.getD k "") = 11))

/-- The vertical-paste reconstruction loop of mawb_parser.py lines
95-143, expressed on the suffix of the line list starting at the loop
index, with a structural fuel argument.  Every iteration of the Python
while loop advances the index by at least one, so a fuel equal to the
list length makes the two agree. -/
def reconLoopF : Nat → List String → List String
  | 0, _ => []
  | _, [] => []
  | fuel + 1, l0 :: rest =>
    let ls := l0 :: rest
    if 4 < ls.length ∧ digitCount (ls.getD 4 "") = 11 then
      joinChar '\t' (ls.take 5) :: reconLoopF fuel (ls.drop 5)
    else if 2 < ls.length ∧ digitCount (ls.getD 2 "") = 11 then
      joinChar '\t' (ls.take 3) :: reconLoopF fuel (ls.drop 3)
    else
      match scanFind ls with
      | some k => joinChar '\t' (ls.take (k + 1)) :: reconLoopF fuel (ls.drop (k + 1))
      | none => reconLoopF fuel rest

/-- The vertical-paste reconstruction loop, mawb_parser.py lines
95-143. -/
def reconLoop (ls : List String) : List String :=
  reconLoopF ls.length ls

/-- The per-line loop of parse_mawb_input, mawb_parser.py lines 169-424:
like the netchb_duty variant, but a None mawb_raw is skipped (line 395)
instead of reaching normalize_mawb. -/
def runLines : List String → List MawbItem
  | [] => []
  | l :: ls =>
    let line := pyStrip l
    if line = "" then runLines ls
    else
      match parseLine line with
      | none => runLines ls
      | some (mawbRaw, a, c, cb) =>
        match mawbRaw with
        | none => runLines ls
        | some raw =>
          match normalize_mawb raw with
          | .error _ => runLines ls
          | .ok m =>
            { mawb := m, airport_code := a.bind orNone, customer := c.bind orNone,
              checkbook_hawbs := cb } :: runLines ls

/-- parse_mawb_input, mawb_parser.py lines 31-441 (the debug-log blocks
are inert).  When the blob has no tab and more than one non-empty line,
the Excel vertical-paste reconstruction replaces the text, but only if it
produced at least one group. -/
def parse_mawb_input (text : String) : List MawbItem :=
  if pyStrip text = "" then []
  else
    let text_stripped := pyStrip text
    let has_tabs := strHasChar text_stripped '\t'
    let all_lines := ((splitCharStr '\n' text_stripped).map pyStrip).filter (· ≠ "")
    let text2 :=
      if ¬has_tabs ∧ all_lines.length > 1 then
        let recon := reconLoop all_lines
        if recon ≠ [] then joinChar '\n' recon else text_stripped
      else text_stripped
    runLines (splitCharStr '\n' text2)

end MawbParser

/-! ## src/service/netchb_duty/playwright_runner.py

The per-MAWB pipeline.  HTTP and HTML-soup boundaries are modelled by
environment records holding the parsed outcome of each external call:
a Bool for whether a request round-trip succeeded, and structures for
what the soup queries would find in the returned HTML. -/

namespace Runner

/-- Which pipeline sections are enabled, the `sections` dict of
process_mawb (playwright_runner.py line 496). -/
structure Sections where
  ams : Bool
  entries : Bool
  custom : Bool
  download_7501_pdf : Bool
deriving DecidableEq, Repr

/-- A result row of the AMS search table (class light or dark), as the
soup queries of _parse_ams_search_results see it: the stripped text of
its td cells and the href of the anchor in its first cell, if any
(an anchor with an empty href is modelled as none, matching the
falsiness test at line 925). -/
structure AmsRow where
  cells : List String
  firstCellHref : Option String
deriving DecidableEq, Repr

/-- The features of the AMS search-response HTML that
_parse_ams_search_results (lines 868-952) queries. -/
structure AmsSearchHtml where
  hasResultsDiv : Bool
  hasTable : Bool
  hasTbody : Bool
  pageText : String
  rows : List AmsRow
deriving DecidableEq, Repr

/-- The dictionary returned by _parse_ams_search_results on success.
The Python not-found dict carries only master_not_found; the other
fields are then never read, so defaults are harmless. -/
structure AmsSearchData where
  master_not_found : Bool
  master_link : Option String
  total_hawbs : String
  arrival_date : String
deriving DecidableEq, Repr

/-- _parse_ams_search_results, playwright_runner.py lines 868-952
(ams_mawb_id is extracted but never read downstream and is omitted). -/
def parseAmsSearchResults (h : AmsSearchHtml) : Option AmsSearchData :=
  if ¬h.hasResultsDiv then none
  else if ¬h.hasTable then none
  else if ¬h.hasTbody then none
  else
    let page := pyLower h.pageText
    if strContains page "there is no awb" || strContains page "no awb" then
      some { master_not_found := true, master_link := none,
             total_hawbs := "N/A", arrival_date := "N/A" }
    else
      match h.rows with
      | [] => some { master_not_found := true, master_link := none,
                     total_hawbs := "N/A", arrival_date := "N/A" }
      | first :: _ =>
        if first.cells.length < 7 then none
        else
          let master_link := first.firstCellHref.map (fun href =>
            if href.startsWith "/" then "https://www.netchb.com" ++ href else href)
          let arrival :=
            if 5 < first.cells.length then
              (let t := pyStrip (first.cells.getD 5 ""); if t = "" then "N/A" else t)
            else "N/A"
          let hawbs :=
            if 6 < first.cells.length then
              (let t := pyStrip (first.cells.getD 6 ""); if t = "" then "N/A" else t)
            else "N/A"
          some { master_not_found := false, master_link := master_link,
                 total_hawbs := hawbs, arrival_date := arrival }

/-- The dictionary _parse_ams_master_page would return (an oracle; the
detail-page HTML itself is not modelled).  Fields are optional to mirror
dict.get with its defaults at lines 1447-1450. -/
structure MasterData where
  duty : Option String
  t11_entries : Option String
  entries_accepted : Option String
  houses_7501 : Option String
deriving DecidableEq, Repr

/-- Environment of _process_ams_section_http: outcome of the search POST
(step 1), the queried features of the returned HTML (step 2), outcome of
the master-page GET (step 3) and the parsed master page (step 4). -/
structure AmsEnv where
  postOk : Bool
  searchHtml : AmsSearchHtml
  masterGetOk : Bool
  masterData : MasterData
deriving DecidableEq, Repr

/-- _process_ams_section_http, playwright_runner.py lines 1344-1462:
returns the mutated summary together with the exception that escaped,
if any (the summary keeps all writes made before the raise). -/
def processAmsSectionHttp (env : AmsEnv) (summary : Summary) :
    Summary × Option PyErr :=
  if ¬env.postOk then (summary, some .runtimeError)
  else
    match parseAmsSearchResults env.searchHtml with
    | some d =>
      if d.master_not_found then
        (summary.setKey "Master Status" "Not Found", none)
      else
        let s1 := (summary.setKey "AMS Total HAWBs" d.total_hawbs).setKey
          "AMS Arrival Date" d.arrival_date
        match d.master_link with
        | none => (s1, some .runtimeError)
        | some _ =>
          if ¬env.masterGetOk then (s1, some .runtimeError)
          else
            let md := env.masterData
            let s2 := (((s1.setKey "AMS Duty" (md.duty.getD "N/A")).setKey
              "AMS Total T-11 Entries" (md.t11_entries.getD "0")).setKey
              "AMS Entries Accepted" (md.entries_accepted.getD "0")).setKey
              "7501 Total Houses" (md.houses_7501.getD "N/A")
            let rejected : Int :=
              match pyInt (md.t11_entries.getD "0"), pyInt (md.entries_accepted.getD "0") with
              | some a, some b => a - b
              | _, _ => 0
            (s2.setKey "Rejected Entries" (toString rejected), none)
    | none => (summary, some .runtimeError)

/-- The dictionary _parse_entries_search_results would return on success
(an oracle; the entries HTML is not modelled).  entry_rows items are
abstracted to their entry numbers. -/
structure EntriesSearchData where
  entries_not_found : Bool
  oldest_entry_date : Option Int
  entry_rows : List Nat
deriving DecidableEq, Repr

/-- Environment of _process_entries_section_http: session cookies from
the browser context, outcome of the search POST, and the parse result
(none models a parse failure). -/
structure EntriesEnv where
  sessionCookies : List (String × String)
  postOk : Bool
  searchData : Option EntriesSearchData
deriving DecidableEq, Repr

/-- The dictionary returned by _process_entries_section_http.  The
not-found return at lines 1737-1740 has no entry_rows key, hence the
Option on entry_rows. -/
structure EntriesResult where
  oldest_entry : Option Int
  entry_rows : Option (List Nat)
  entries_not_found : Bool
deriving DecidableEq, Repr

/-- _process_entries_section_http, playwright_runner.py lines 1625-1761:
summary plus either the entries dictionary or the escaped exception. -/
def processEntriesSectionHttp (env : EntriesEnv) (summary : Summary) :
    Summary × Except PyErr EntriesResult :=
  if env.sessionCookies = [] then (summary, .error .runtimeError)
  else if ¬env.postOk then (summary, .error .runtimeError)
  else
    match env.searchData with
    | none => (summary, .error .runtimeError)
    | some sd =>
      if sd.entries_not_found then
        (summary.setKey "Entries Status" "Not Found",
         .ok { oldest_entry := none, entry_rows := none, entries_not_found := true })
      else
        let s1 :=
          match sd.oldest_entry_date with
          | some d => summary.setKey "Entry Date" (strftimeMMDDYYSlash d)
          | none => summary
        (s1, .ok { oldest_entry := sd.oldest_entry_date,
                   entry_rows := some sd.entry_rows, entries_not_found := false })

/-- Outcome of _process_custom_report (an oracle): either the escaped
exception, or the artifact path (possibly None) and the report summary
dictionary that gets merged into the pipeline summary. -/
structure CustomEnv where
  outcome : Except PyErr (Option String × List (String × String))
deriving Repr

/-- Environment of the PDF download block, playwright_runner.py lines
605-779: browser-context cookies, whether the initial-verification
computation itself raises (line 669), the PDF download outcome (ok true
means a file exists at pdf_path), the extraction outcome and the storage
upload outcome (storage path and presigned URL). -/
structure PdfEnv where
  storageCookies : List (String × String)
  verifyExc : Bool
  downloadResult : Except PyErr Bool
  extractResult : Except PyErr (Nat × ℚ)
  uploadResult : Except PyErr (String × String)
deriving Repr

/-- parse_value, playwright_runner.py lines 630-639: strip dollar signs
and commas, parse as float, anything unparsable or missing becomes 0. -/
def parseValue (v : Option String) : ℚ :=
  match v with
  | none => 0
  | some s => (pyFloat (pyStrip (stripCharStr ',' (stripCharStr '$' s)))).getD 0

/-- The initial pre-PDF verification, playwright_runner.py lines
641-656: all four house counts equal, no rejected entries, and AMS and
report duty within the 0.01 tolerance. -/
def initialGate (s : Summary) : Bool :=
  let ams_hawbs := parseValue (s.getKey? "AMS Total HAWBs")
  let houses_7501 := parseValue (s.getKey? "7501 Total Houses")
  let report_houses := parseValue (s.getKey? "Report Total House")
  let checkbook := parseValue (s.getKey? "Checkbook HAWBs")
  let rejected := parseValue (s.getKey? "Rejected Entries")
  let ams_duty := parseValue (s.getKey? "AMS Duty")
  let report_duty := parseValue (s.getKey? "Report Duty")
  decide (ams_hawbs = houses_7501 ∧ houses_7501 = report_houses ∧ report_houses = checkbook) &&
    decide (rejected = 0) && absDiffLeCenti ams_duty report_duty

/-- Observable behaviour of the PDF download block beyond the summary:
which steps ran and what the verification decided. -/
structure PdfStageOut where
  summary : Summary
  gateErrored : Bool
  gateVerdict : Option Bool
  gateSummary : Option Summary
  shouldDownload : Option Bool
  downloadCalled : Bool
  extractCalled : Bool
  uploadCalled : Bool
deriving DecidableEq, Repr

/-- A PdfStageOut for the paths that skip every PDF step. -/
def pdfNoOp (s : Summary) : PdfStageOut :=
  { summary := s, gateErrored := false, gateVerdict := none, gateSummary := none,
    shouldDownload := none, downloadCalled := false, extractCalled := false,
    uploadCalled := false }

/-- The entries-not-found test of the PDF section guard,
playwright_runner.py line 610. -/
def entriesNotFoundFlag (ed : Option EntriesResult) : Bool :=
  match ed with
  | some d => d.entries_not_found
  | none => false

/-- entry_rows as the PDF section reads it (line 614): absent key or
absent dictionary yield the empty list, which is falsy at line 616. -/
def entryRowsOf (ed : Option EntriesResult) : List Nat :=
  (ed.bind (·.entry_rows)).getD []

/-- The local variables of the initial verification, playwright_runner.py
lines 626-672: whether to download, whether the verification errored, the
verdict when one was computed, and the summary snapshot it judged. -/
structure GateDecision where
  should_download : Bool
  gateErrored : Bool
  gateVerdict : Option Bool
  gateSummary : Option Summary
deriving Repr

/-- The initial-verification decision, playwright_runner.py lines
626-672: evaluated only when the ams and custom sections are enabled;
an exception during evaluation fails open (line 672). -/
def gateDecision (sections : Sections) (pdf : PdfEnv) (s : Summary) : GateDecision :=
  if sections.ams && sections.custom then
    if pdf.verifyExc then ⟨true, true, none, none⟩
    else ⟨initialGate s, false, some (initialGate s), some s⟩
  else ⟨true, false, none, none⟩

/-- The download-extract-upload flow, playwright_runner.py lines 677-772,
entered once should_download is true. -/
def pdfDownloadFlow (pdf : PdfEnv) (s : Summary) (base : PdfStageOut) : PdfStageOut :=
  match pdf.downloadResult with
  | .error _ => { base with downloadCalled := true }
  | .ok false => { base with downloadCalled := true }
  | .ok true =>
    let s1 :=
      match pdf.extractResult with
      | .ok (c, d) =>
        (s.setKey "7501 Total T-11 Entries" (toString c)).setKey "7501 Duty" (fmt2 d)
      | .error _ => s
    match pdf.uploadResult with
    | .ok (_, url) =>
      { base with
        summary :=
          s1.setKey "7501 Batch PDF URL"
            (if url ≠ "" ∧ pyStrip url ≠ "" then url else ""),
        downloadCalled := true, extractCalled := true, uploadCalled := true }
    | .error _ =>
      { base with
        summary := s1.setKey "7501 Batch PDF URL" "",
        downloadCalled := true, extractCalled := true, uploadCalled := true }

/-- The stage output at the moment the download decision has been made
but nothing has been downloaded yet. -/
def pdfBase (sections : Sections) (pdf : PdfEnv) (s : Summary) : PdfStageOut :=
  { pdfNoOp s with
    gateErrored := (gateDecision sections pdf s).gateErrored
    gateVerdict := (gateDecision sections pdf s).gateVerdict
    gateSummary := (gateDecision sections pdf s).gateSummary
    shouldDownload := some (gateDecision sections pdf s).should_download }

/-- The PDF download section of process_mawb, playwright_runner.py lines
605-779, for a given entries dictionary (None when the entries section
failed or never ran). -/
def runPdfStage (sections : Sections) (pdf : PdfEnv) (s : Summary)
    (ed : Option EntriesResult) : PdfStageOut :=
  if ¬sections.download_7501_pdf then pdfNoOp s
  else if entriesNotFoundFlag ed then pdfNoOp s
  else if entryRowsOf ed = [] then pdfNoOp s
  else if pdf.storageCookies = [] then pdfNoOp s
  else if ¬(gateDecision sections pdf s).should_download then pdfBase sections pdf s
  else pdfDownloadFlow pdf s (pdfBase sections pdf s)

/-- The environments of all four pipeline sections. -/
structure Env where
  ams : AmsEnv
  entries : EntriesEnv
  custom : CustomEnv
  pdf : PdfEnv
deriving Repr

/-- DutyRunResult, playwright_runner.py lines 56-64.  status and
error_message are set dynamically only on the master-not-found path
(lines 554-555); none models the attribute being absent. -/
structure DutyRunResult where
  mawb : String
  summary : Summary
  download_path : Option String
  status : Option String
  error_message : Option String
deriving DecidableEq, Repr

/-- Which pipeline stages ran, as observable behaviour of process_mawb
alongside its returned value. -/
structure Trace where
  shortCircuited : Bool
  entriesRan : Bool
  customCalled : Bool
  pdfOut : PdfStageOut
deriving DecidableEq, Repr

/-- The summary initialization of process_mawb, playwright_runner.py
lines 513-531. -/
def initSummary (digits : String) (checkbook_hawbs : Option String) : Summary :=
  [("MAWB Number", digits),
   ("AMS Total HAWBs", "N/A"),
   ("AMS Duty", "N/A"),
   ("AMS Total T-11 Entries", "N/A"),
   ("AMS Entries Accepted", "N/A"),
   ("Rejected Entries", "N/A"),
   ("7501 Total T-11 Entries", "N/A"),
   ("7501 Total Houses", "N/A"),
   ("7501 Duty", "N/A"),
   ("Report Duty", "N/A"),
   ("Report Total House", "N/A"),
   ("Total Informal Duty", "N/A"),
   ("Complete Total Duty", "N/A"),
   ("Entry Date", "N/A"),
   ("Cargo Release Date", "N/A"),
   ("7501 Batch PDF URL", "N/A"),
   ("Checkbook HAWBs", match checkbook_hawbs with
                       | some c => pyStrip c
                       | none => "N/A")]

/-- _normalize_mawb, playwright_runner.py lines 40-44. -/
def normalize_mawb (mawb : String) : Except PyErr String :=
  let ds := digitsOf mawb
  if ds.length ≠ 11 then .error .valueError else .ok ⟨ds⟩

/-- The custom-report section of process_mawb, playwright_runner.py
lines 579-602: summary, download path for the result, and whether
_process_custom_report was invoked. -/
def runCustomStage (sections : Sections) (env : CustomEnv) (s : Summary)
    (ed : Option EntriesResult) : Summary × Option String × Bool :=
  if ¬sections.custom then (s, none, false)
  else if (match ed with | some d => d.entries_not_found | none => false) then (s, none, false)
  else
    match ed.bind (·.oldest_entry) with
    | none => (s, none, false)
    | some _ =>
      match env.outcome with
      | .error _ => (s, none, true)
      | .ok (path, rep) => (s.updateAll rep, path.bind orNone, true)

/-- The AMS stage of process_mawb, playwright_runner.py lines 539-548:
run the section when enabled, swallowing its exceptions. -/
def runAmsStage (sections : Sections) (env : AmsEnv) (s : Summary) : Summary :=
  if sections.ams then (processAmsSectionHttp env s).1 else s

/-- The entries stage of process_mawb, playwright_runner.py lines
560-577: run when any downstream consumer is enabled; entries_data is
None when the section raised. -/
def runEntriesStage (sections : Sections) (env : EntriesEnv) (s : Summary) :
    Summary × Option EntriesResult :=
  if sections.entries || sections.custom || sections.download_7501_pdf then
    match processEntriesSectionHttp env s with
    | (s2, .ok r) => (s2, some r)
    | (s2, .error _) => (s2, none)
  else (s, none)

/-- process_mawb, playwright_runner.py lines 492-787, given the
normalized digits.  Stage exceptions are swallowed (logged) exactly
where the source wraps each section in try/except. -/
def processWithDigits (digits : String) (sections : Sections) (env : Env)
    (checkbook_hawbs : Option String) : DutyRunResult × Trace :=
  let s1 := runAmsStage sections env.ams (initSummary digits checkbook_hawbs)
  if sections.ams ∧ s1.getKey? "Master Status" = some "Not Found" then
    ({ mawb := digits, summary := s1, download_path := none,
       status := some "failed", error_message := some "Master not found" },
     { shortCircuited := true, entriesRan := false, customCalled := false,
       pdfOut := pdfNoOp s1 })
  else
    let entries := runEntriesStage sections env.entries s1
    let custom := runCustomStage sections env.custom entries.1 entries.2
    let p := runPdfStage sections env.pdf custom.1 entries.2
    ({ mawb := digits, summary := p.summary, download_path := custom.2.1,
       status := none, error_message := none },
     { shortCircuited := false,
       entriesRan := sections.entries || sections.custom || sections.download_7501_pdf,
       customCalled := custom.2.2, pdfOut := p })

/-- process_mawb, playwright_runner.py lines 492-787.  The only escaping
exception in the embedded fragment is the ValueError of _normalize_mawb
at line 507. -/
def process_mawb (mawb : String) (sections : Sections) (env : Env)
    (checkbook_hawbs : Option String) : Except PyErr (DutyRunResult × Trace) :=
  match normalize_mawb mawb with
  | .error e => .error e
  | .ok digits => .ok (processWithDigits digits sections env checkbook_hawbs)

end Runner

/-! ## src/service/duty_service.py -/

namespace DutyService

/-- The arguments that upsert_result receives from
StandaloneDutyService.process_mawb on its non-exception path. -/
structure UpsertArgs where
  mawb : String
  status : String
  error_message : Option String
deriving DecidableEq, Repr

/-- duty_service.py lines 384-395: once runner.process_mawb returns a
DutyRunResult (it does not raise on the master-not-found path), the
service upserts with the literal status "success" and passes no
error_message; the status and error_message carried by the DutyRunResult
are never consulted. -/
def persistResult (duty_result : Runner.DutyRunResult) : UpsertArgs :=
  { mawb := duty_result.mawb, status := "success", error_message := none }

end DutyService

/-! ## src/service/netchb_duty/database_manager.py -/

namespace DbManager

/-- Outcome of one query.execute() call: the response data list, or the
exception with its message text and type name. -/
inductive ExecOutcome (α : Type)
  | okData (data : List α)
  | exn (msg : String) (typeName : String)
deriving Repr

/-- The resource-error classification, database_manager.py lines 60-66. -/
def isResourceError (msg : String) : Bool :=
  strContains msg "Resource temporarily unavailable" ||
  strContains msg "Errno 35" ||
  strContains (pyLower msg) "temporarily unavailable" ||
  strContains msg "EAGAIN" ||
  strContains msg "EWOULDBLOCK"

/-- The connection-error classification, database_manager.py lines
69-76. -/
def isConnectionError (msg typeName : String) : Bool :=
  strContains msg "Server disconnected" ||
  strContains typeName "RemoteProtocolError" ||
  strContains typeName "ConnectionError" ||
  strContains (pyLower msg) "disconnected" ||
  strContains (pyLower msg) "connection reset" ||
  strContains (pyLower msg) "connection closed"

/-- Observable behaviour of the retry wrapper: the overall result
(error means the exception was re-raised), the number of execute
attempts, the sleeps performed in milliseconds, and how many times the
client was recreated. -/
structure ExecTrace (α : Type) where
  result : Except Unit (List α)
  attempts : Nat
  waitsMs : List Nat
  clientRecreated : Nat
deriving Repr

/-- The attempt loop of _execute, database_manager.py lines 47-101, with
max_retries = 3.  `attempt` is the loop variable and `remaining` the
iterations left; the fall-through after the loop (line 101, returning
the default) is unreachable but modelled faithfully. -/
def execAux (oracle : Nat → ExecOutcome α) (dflt : List α) :
    Nat → Nat → ExecTrace α
  | _, 0 => { result := .ok dflt, attempts := 0, waitsMs := [], clientRecreated := 0 }
  | attempt, remaining + 1 =>
    match oracle attempt with
    | .okData data =>
      { result := .ok (if data.isEmpty then dflt else data),
        attempts := attempt + 1, waitsMs := [], clientRecreated := 0 }
    | .exn msg ty =>
      if (isResourceError msg || isConnectionError msg ty) && attempt < 2 then
        let sub := execAux oracle dflt (attempt + 1) remaining
        { result := sub.result, attempts := sub.attempts,
          waitsMs := 500 * 2 ^ attempt :: sub.waitsMs,
          clientRecreated := (if isConnectionError msg ty then 1 else 0) + sub.clientRecreated }
      else
        { result := .error (), attempts := attempt + 1, waitsMs := [],
          clientRecreated := 0 }

/-- _execute, database_manager.py lines 37-101, over an oracle giving
the outcome of each attempt (the Python `data or default` truthiness is
the isEmpty test; the response-shape fallbacks at lines 50-52 are
collapsed into the data list). -/
def executeQuery (oracle : Nat → ExecOutcome α) (dflt : List α) : ExecTrace α :=
  execAux oracle dflt 0 3

end DbManager

/-! ## _build_custom_report_payload (playwright_runner.py lines 2653-2737),
date selection at day granularity -/

namespace CustomReport

/-- The begin and end form fields of the custom-report payload,
playwright_runner.py lines 2678-2693.  Dates are modelled as day counts;
(today - oldest_entry).days is then exactly their difference. -/
def payloadDates (today oldest_entry : Int) : String × String :=
  let days_old := today - oldest_entry
  let end_date := if days_old ≥ 25 then oldest_entry + 25 else today
  (strftimeMMDDYY oldest_entry, strftimeMMDDYY end_date)

end CustomReport

/-! ## Concrete fixtures used by witnesses and counterexamples -/

namespace Fixtures

/-- The seventeen fixed Summary keys of spec section 6. -/
def summaryKeys : List String :=
  ["MAWB Number", "AMS Total HAWBs", "AMS Duty", "AMS Total T-11 Entries",
   "AMS Entries Accepted", "Rejected Entries", "7501 Total T-11 Entries",
   "7501 Total Houses", "7501 Duty", "Report Duty", "Report Total House",
   "Total Informal Duty", "Complete Total Duty", "Entry Date",
   "Cargo Release Date", "7501 Batch PDF URL", "Checkbook HAWBs"]

/-- An AMS search response whose page text carries the
"There is no awb" marker. -/
def amsNotFound : Runner.AmsEnv :=
  { postOk := true
    searchHtml := { hasResultsDiv := true, hasTable := true, hasTbody := true,
                    pageText := "There is no awb matching your search", rows := [] }
    masterGetOk := true
    masterData := { duty := none, t11_entries := none, entries_accepted := none,
                    houses_7501 := none } }

/-- A successful AMS flow: one result row, arrival 01/01/25, 4250 HAWBs,
master page with 9000 duty, 3 accepted T-11 entries, 4250 houses. -/
def amsOk : Runner.AmsEnv :=
  { postOk := true
    searchHtml := { hasResultsDiv := true, hasTable := true, hasTbody := true,
                    pageText := "results table",
                    rows := [{ cells := ["235-94731221", "a", "b", "c", "d",
                                         "01/01/25", "4250"],
                               firstCellHref := some "/app/ams/viewMawb.do?amsMawbId=7" }] }
    masterGetOk := true
    masterData := { duty := some "$9,000.00", t11_entries := some "3",
                    entries_accepted := some "3", houses_7501 := some "4250" } }

/-- A successful entries flow with two entry rows. -/
def entriesOk : Runner.EntriesEnv :=
  { sessionCookies := [("JSESSIONID", "x")], postOk := true
    searchData := some { entries_not_found := false, oldest_entry_date := some 20000,
                         entry_rows := [101, 102] } }

/-- A custom report whose figures agree with the AMS fixture. -/
def customOkRep : List (String × String) :=
  [("Report Duty", "9000.00"), ("Report Total House", "4250"),
   ("Total Informal Duty", "0.00"), ("Complete Total Duty", "9000.00"),
   ("Entry Date", "10/01/24"), ("Cargo Release Date", "10/02/24")]

/-- A custom report with a mismatched house count (4249 against 4250). -/
def customMismatchRep : List (String × String) :=
  [("Report Duty", "9000.00"), ("Report Total House", "4249"),
   ("Total Informal Duty", "0.00"), ("Complete Total Duty", "9000.00"),
   ("Entry Date", "10/01/24"), ("Cargo Release Date", "10/02/24")]

/-- A fully successful PDF block: download works, the PDF yields 3
entries and 9000 duty, the upload returns a presigned URL. -/
def pdfOk : Runner.PdfEnv :=
  { storageCookies := [("JSESSIONID", "x")], verifyExc := false
    downloadResult := .ok true, extractResult := .ok (3, 9000)
    uploadResult := .ok ("7501-batch-pdfs/x.pdf", "https://signed") }

/-- All four sections enabled. -/
def allSections : Runner.Sections :=
  { ams := true, entries := true, custom := true, download_7501_pdf := true }

/-- Master-not-found environment. -/
def envNotFound : Runner.Env :=
  { ams := amsNotFound, entries := entriesOk
    custom := { outcome := .ok (some "/tmp/r.xlsx", customOkRep) }, pdf := pdfOk }

/-- Fully consistent happy-path environment. -/
def envHappy : Runner.Env :=
  { ams := amsOk, entries := entriesOk
    custom := { outcome := .ok (some "/tmp/r.xlsx", customOkRep) }, pdf := pdfOk }

/-- House-mismatch environment: the pre-PDF gate fails. -/
def envGateFail : Runner.Env :=
  { ams := amsOk, entries := entriesOk
    custom := { outcome := .ok (some "/tmp/r.xlsx", customMismatchRep) }, pdf := pdfOk }

/-- Happy-path environment whose PDF extraction yields zero entries and
zero duty. -/
def envZero : Runner.Env :=
  { ams := amsOk, entries := entriesOk
    custom := { outcome := .ok (some "/tmp/r.xlsx", customOkRep) }
    pdf := { pdfOk with extractResult := .ok (0, 0) } }

/-- House-mismatch environment in which evaluating the verification
itself raises. -/
def envVerifyExc : Runner.Env :=
  { ams := amsOk, entries := entriesOk
    custom := { outcome := .ok (some "/tmp/r.xlsx", customMismatchRep) }
    pdf := { pdfOk with verifyExc := true } }

/-- Pipeline outcome on the master-not-found environment. -/
def notFoundPair : Runner.DutyRunResult × Runner.Trace :=
  Runner.processWithDigits "23594731221" allSections envNotFound (some "4250")

/-- Pipeline outcome on the happy-path environment. -/
def happyPair : Runner.DutyRunResult × Runner.Trace :=
  Runner.processWithDigits "23594731221" allSections envHappy (some "4250")

/-- Pipeline outcome on the gate-failure environment. -/
def gateFailPair : Runner.DutyRunResult × Runner.Trace :=
  Runner.processWithDigits "23594731221" allSections envGateFail (some "4250")

/-- Pipeline outcome on the zero-extraction environment. -/
def zeroPair : Runner.DutyRunResult × Runner.Trace :=
  Runner.processWithDigits "23594731221" allSections envZero (some "4250")

/-- Pipeline outcome when the gate evaluation raises. -/
def verifyExcPair : Runner.DutyRunResult × Runner.Trace :=
  Runner.processWithDigits "23594731221" allSections envVerifyExc (some "4250")

/-- A deterministic query oracle that fails with a resource error on the
first two attempts and then succeeds. -/
def flakyOracle : Nat → DbManager.ExecOutcome String
  | 0 => .exn "Resource temporarily unavailable" "OSError"
  | 1 => .exn "Resource temporarily unavailable" "OSError"
  | _ => .okData ["row"]

end Fixtures

/-- The write set of the AMS section: every key
_process_ams_section_http can assign. -/
def amsWriteKeys : List String :=
  ["Master Status", "AMS Total HAWBs", "AMS Arrival Date", "AMS Duty",
   "AMS Total T-11 Entries", "AMS Entries Accepted", "7501 Total Houses",
   "Rejected Entries"]

/-- The write set of the entries section. -/
def entriesWriteKeys : List String :=
  ["Entries Status", "Entry Date"]

/-- The report dictionary an outcome of _process_custom_report merges
into the summary (empty when the call raises). -/
def Runner.CustomEnv.reportOf (c : Runner.CustomEnv) : List (String × String) :=
  match c.outcome with
  | .ok (_, rep) => rep
  | .error _ => []

/-! ## Dictionary lemmas -/

theorem getKey?_setKey_self (s : Summary) (k v : String) :
    (s.setKey k v).getKey? k = some v := by
  induction s with
  | nil => simp [Summary.setKey, Summary.getKey?]
  | cons p rest ih =>
    by_cases hp : p.1 = k
    · simp [Summary.setKey, Summary.getKey?, hp]
    · simp [Summary.setKey, Summary.getKey?, hp, ih]

theorem getKey?_setKey_ne (s : Summary) (k k' v : String) (h : k ≠ k') :
    (s.setKey k' v).getKey? k = s.getKey? k := by
  induction s with
  | nil => simp [Summary.setKey, Summary.getKey?, Ne.symm h]
  | cons p rest ih =>
    by_cases hp : p.1 = k'
    · simp [Summary.setKey, Summary.getKey?, hp, Ne.symm h]
    · by_cases hk : p.1 = k
      · simp [Summary.setKey, Summary.getKey?, hp, hk, h]
      · simp [Summary.setKey, Summary.getKey?, hp, hk, ih]

theorem isSome_getKey?_setKey (s : Summary) (k k' v : String)
    (h : (s.getKey? k).isSome) : ((s.setKey k' v).getKey? k).isSome := by
  by_cases hk : k = k'
  · subst hk; simp [getKey?_setKey_self]
  · rw [getKey?_setKey_ne s k k' v hk]; exact h

theorem isSome_getKey?_updateAll (s : Summary) (kvs : List (String × String))
    (k : String) (h : (s.getKey? k).isSome) :
    ((s.updateAll kvs).getKey? k).isSome := by
  induction kvs generalizing s with
  | nil => simpa [Summary.updateAll] using h
  | cons kv rest ih =>
    simp only [Summary.updateAll, List.foldl_cons]
    exact ih (s.setKey kv.1 kv.2) (isSome_getKey?_setKey s k kv.1 kv.2 h)

theorem getKey?_updateAll_ne (s : Summary) (kvs : List (String × String))
    (k : String) (h : ∀ kv ∈ kvs, kv.1 ≠ k) :
    (s.updateAll kvs).getKey? k = s.getKey? k := by
  induction kvs generalizing s with
  | nil => simp [Summary.updateAll]
  | cons kv rest ih =>
    simp only [Summary.updateAll, List.foldl_cons]
    have h1 : ∀ p ∈ rest, p.1 ≠ k := fun p hp => h p (List.mem_cons_of_mem kv hp)
    have h0 : kv.1 ≠ k := h kv (List.mem_cons_self kv rest)
    rw [show (List.foldl (fun acc p => acc.setKey p.1 p.2) (s.setKey kv.1 kv.2) rest) =
        (s.setKey kv.1 kv.2).updateAll rest from rfl]
    rw [ih (s.setKey kv.1 kv.2) h1]
    exact getKey?_setKey_ne s k kv.1 kv.2 (Ne.symm h0)

/-! ## Stage lemmas -/

theorem processAms_getKey?_ne (env : Runner.AmsEnv) (s : Summary) (k : String)
    (h : k ∉ amsWriteKeys) :
    ((Runner.processAmsSectionHttp env s).1).getKey? k = s.getKey? k := by
  simp only [amsWriteKeys, List.mem_cons, List.not_mem_nil, or_false] at h
  push_neg at h
  obtain ⟨h1, h2, h3, h4, h5, h6, h7, h8⟩ := h
  unfold Runner.processAmsSectionHttp
  by_cases hpost : env.postOk
  · simp only [hpost]
    cases hp : Runner.parseAmsSearchResults env.searchHtml with
    | none => simp
    | some d =>
      by_cases hnf : d.master_not_found
      · simp [hnf, getKey?_setKey_ne _ _ _ _ h1]
      · cases hml : d.master_link with
        | none =>
          simp [hnf, hml, getKey?_setKey_ne _ _ _ _ h2, getKey?_setKey_ne _ _ _ _ h3]
        | some l =>
          by_cases hmg : env.masterGetOk
          · simp [hnf, hml, hmg, getKey?_setKey_ne _ _ _ _ h1,
              getKey?_setKey_ne _ _ _ _ h2, getKey?_setKey_ne _ _ _ _ h3,
              getKey?_setKey_ne _ _ _ _ h4, getKey?_setKey_ne _ _ _ _ h5,
              getKey?_setKey_ne _ _ _ _ h6, getKey?_setKey_ne _ _ _ _ h7,
              getKey?_setKey_ne _ _ _ _ h8]
          · simp [hnf, hml, hmg, getKey?_setKey_ne _ _ _ _ h2,
              getKey?_setKey_ne _ _ _ _ h3]
  · simp [hpost]

theorem processEntries_getKey?_ne (env : Runner.EntriesEnv) (s : Summary)
    (k : String) (h1 : k ≠ "Entries Status") (h2 : k ≠ "Entry Date") :
    ((Runner.processEntriesSectionHttp env s).1).getKey? k = s.getKey? k := by
  unfold Runner.processEntriesSectionHttp
  by_cases hc : env.sessionCookies = []
  · simp [hc]
  · by_cases hpost : env.postOk
    · cases hsd : env.searchData with
      | none => simp [hc, hpost, hsd]
      | some sd =>
        by_cases hnf : sd.entries_not_found
        · simp [hc, hpost, hsd, hnf, getKey?_setKey_ne _ _ _ _ h1]
        · cases ho : sd.oldest_entry_date with
          | none => simp [hc, hpost, hsd, hnf, ho]
          | some d => simp [hc, hpost, hsd, hnf, ho, getKey?_setKey_ne _ _ _ _ h2]
    · simp [hc, hpost]

theorem runCustomStage_getKey?_ne (sections : Runner.Sections)
    (env : Runner.CustomEnv) (s : Summary) (ed : Option Runner.EntriesResult)
    (k : String) (h : ∀ kv ∈ env.reportOf, kv.1 ≠ k) :
    (Runner.runCustomStage sections env s ed).1.getKey? k = s.getKey? k := by
  unfold Runner.runCustomStage
  by_cases hcu : sections.custom
  · by_cases hnf : (match ed with | some d => d.entries_not_found | none => false) = true
    · simp [hcu, hnf]
    · cases hed : ed.bind (·.oldest_entry) with
      | none => simp [hcu, hnf, hed]
      | some d =>
        cases ho : env.outcome with
        | error e => simp [hcu, hnf, hed, ho]
        | ok pr =>
          obtain ⟨path, rep⟩ := pr
          have hrep : ∀ kv ∈ rep, kv.1 ≠ k := by
            intro kv hkv
            apply h
            simpa [Runner.CustomEnv.reportOf, ho] using hkv
          simp [hcu, hnf, hed, ho, getKey?_updateAll_ne s rep k hrep]
  · simp [hcu]

theorem processAms_isSome (env : Runner.AmsEnv) (s : Summary) (k : String)
    (h : (s.getKey? k).isSome) :
    (((Runner.processAmsSectionHttp env s).1).getKey? k).isSome := by
  unfold Runner.processAmsSectionHttp
  by_cases hpost : env.postOk
  · simp only [hpost]
    cases hp : Runner.parseAmsSearchResults env.searchHtml with
    | none => simpa using h
    | some d =>
      by_cases hnf : d.master_not_found
      · simpa [hnf] using isSome_getKey?_setKey _ _ _ _ h
      · cases hml : d.master_link with
        | none =>
          simpa [hnf, hml] using
            isSome_getKey?_setKey _ _ _ _ (isSome_getKey?_setKey _ _ _ _ h)
        | some l =>
          by_cases hmg : env.masterGetOk
          · simpa [hnf, hml, hmg] using
              isSome_getKey?_setKey _ _ _ _ (isSome_getKey?_setKey _ _ _ _
                (isSome_getKey?_setKey _ _ _ _ (isSome_getKey?_setKey _ _ _ _
                  (isSome_getKey?_setKey _ _ _ _ (isSome_getKey?_setKey _ _ _ _
                    (isSome_getKey?_setKey _ _ _ _ h))))))
          · simpa [hnf, hml, hmg] using
              isSome_getKey?_setKey _ _ _ _ (isSome_getKey?_setKey _ _ _ _ h)
  · simpa [hpost] using h

theorem processEntries_isSome (env : Runner.EntriesEnv) (s : Summary)
    (k : String) (h : (s.getKey? k).isSome) :
    (((Runner.processEntriesSectionHttp env s).1).getKey? k).isSome := by
  unfold Runner.processEntriesSectionHttp
  by_cases hc : env.sessionCookies = []
  · simpa [hc] using h
  · by_cases hpost : env.postOk
    · cases hsd : env.searchData with
      | none => simpa [hc, hpost, hsd] using h
      | some sd =>
        by_cases hnf : sd.entries_not_found
        · simpa [hc, hpost, hsd, hnf] using isSome_getKey?_setKey _ _ _ _ h
        · cases ho : sd.oldest_entry_date with
          | none => simpa [hc, hpost, hsd, hnf, ho] using h
          | some d =>
            simpa [hc, hpost, hsd, hnf, ho] using isSome_getKey?_setKey _ _ _ _ h
    · simpa [hc, hpost] using h

theorem runCustomStage_isSome (sections : Runner.Sections)
    (env : Runner.CustomEnv) (s : Summary) (ed : Option Runner.EntriesResult)
    (k : String) (h : (s.getKey? k).isSome) :
    ((Runner.runCustomStage sections env s ed).1.getKey? k).isSome := by
  unfold Runner.runCustomStage
  by_cases hcu : sections.custom
  · by_cases hnf : (match ed with | some d => d.entries_not_found | none => false) = true
    · simpa [hcu, hnf] using h
    · cases hed : ed.bind (·.oldest_entry) with
      | none => simpa [hcu, hnf, hed] using h
      | some d =>
        cases ho : env.outcome with
        | error e => simpa [hcu, hnf, hed, ho] using h
        | ok pr =>
          obtain ⟨path, rep⟩ := pr
          simpa [hcu, hnf, hed, ho] using isSome_getKey?_updateAll _ _ _ h
  · simpa [hcu] using h

theorem runAmsStage_isSome (sections : Runner.Sections) (env : Runner.AmsEnv)
    (s : Summary) (k : String) (h : (s.getKey? k).isSome) :
    ((Runner.runAmsStage sections env s).getKey? k).isSome := by
  unfold Runner.runAmsStage
  by_cases ha : sections.ams
  · simpa [ha] using processAms_isSome env s k h
  · simpa [ha] using h

theorem runEntriesStage_isSome (sections : Runner.Sections)
    (env : Runner.EntriesEnv) (s : Summary) (k : String)
    (h : (s.getKey? k).isSome) :
    ((Runner.runEntriesStage sections env s).1.getKey? k).isSome := by
  unfold Runner.runEntriesStage
  by_cases he : (sections.entries || sections.custom || sections.download_7501_pdf) = true
  · simp only [he, if_true]
    have hpre := processEntries_isSome env s k h
    rcases hps : Runner.processEntriesSectionHttp env s with ⟨s2, r⟩
    rw [hps] at hpre
    cases r with
    | ok v => simpa [hps] using hpre
    | error e => simpa [hps] using hpre
  · simpa [he] using h


theorem pdfDownloadFlow_gateFields (pdf : Runner.PdfEnv) (s : Summary)
    (base : Runner.PdfStageOut) :
    (Runner.pdfDownloadFlow pdf s base).gateErrored = base.gateErrored ∧
    (Runner.pdfDownloadFlow pdf s base).gateVerdict = base.gateVerdict ∧
    (Runner.pdfDownloadFlow pdf s base).gateSummary = base.gateSummary ∧
    (Runner.pdfDownloadFlow pdf s base).shouldDownload = base.shouldDownload ∧
    (Runner.pdfDownloadFlow pdf s base).downloadCalled = true := by
  unfold Runner.pdfDownloadFlow
  cases hres : pdf.downloadResult with
  | error e => simp
  | ok b =>
    cases b with
    | false => simp
    | true =>
      cases hup : pdf.uploadResult with
      | error e => simp
      | ok pu => obtain ⟨p, u⟩ := pu; simp

theorem pdfDownloadFlow_isSome (pdf : Runner.PdfEnv) (s : Summary)
    (base : Runner.PdfStageOut) (k : String)
    (h : (s.getKey? k).isSome) (hb : base.summary = s) :
    ((Runner.pdfDownloadFlow pdf s base).summary.getKey? k).isSome := by
  unfold Runner.pdfDownloadFlow
  cases hres : pdf.downloadResult with
  | error e => simpa [hb] using h
  | ok b =>
    cases b with
    | false => simpa [hb] using h
    | true =>
      cases hex : pdf.extractResult with
      | error e =>
        cases hup : pdf.uploadResult with
        | error e2 => simpa using isSome_getKey?_setKey _ _ _ _ h
        | ok pu =>
          obtain ⟨p, u⟩ := pu
          simpa using isSome_getKey?_setKey _ _ _ _ h
      | ok cd =>
        obtain ⟨c, d⟩ := cd
        cases hup : pdf.uploadResult with
        | error e2 =>
          simpa using isSome_getKey?_setKey _ _ _ _ (isSome_getKey?_setKey _ _ _ _
            (isSome_getKey?_setKey _ _ _ _ h))
        | ok pu =>
          obtain ⟨p, u⟩ := pu
          simpa using isSome_getKey?_setKey _ _ _ _ (isSome_getKey?_setKey _ _ _ _
            (isSome_getKey?_setKey _ _ _ _ h))

theorem pdfDownloadFlow_values (pdf : Runner.PdfEnv) (s : Summary)
    (base : Runner.PdfStageOut) (c : Nat) (dq : ℚ)
    (hok : pdf.downloadResult = .ok true)
    (hex : pdf.extractResult = .ok (c, dq)) :
    (Runner.pdfDownloadFlow pdf s base).summary.getKey?
        "7501 Total T-11 Entries" = some (toString c) ∧
    (Runner.pdfDownloadFlow pdf s base).summary.getKey? "7501 Duty" =
      some (fmt2 dq) := by
  unfold Runner.pdfDownloadFlow
  rw [hok, hex]
  have h1 : ("7501 Total T-11 Entries" : String) ≠ "7501 Batch PDF URL" := by decide
  have h2 : ("7501 Total T-11 Entries" : String) ≠ "7501 Duty" := by decide
  have h3 : ("7501 Duty" : String) ≠ "7501 Batch PDF URL" := by decide
  cases hup : pdf.uploadResult with
  | error e =>
    constructor
    · simp only []
      rw [getKey?_setKey_ne _ _ _ _ h1, getKey?_setKey_ne _ _ _ _ h2,
        getKey?_setKey_self]
    · simp only []
      rw [getKey?_setKey_ne _ _ _ _ h3, getKey?_setKey_self]
  | ok pu =>
    obtain ⟨p, u⟩ := pu
    constructor
    · simp only []
      rw [getKey?_setKey_ne _ _ _ _ h1, getKey?_setKey_ne _ _ _ _ h2,
        getKey?_setKey_self]
    · simp only []
      rw [getKey?_setKey_ne _ _ _ _ h3, getKey?_setKey_self]

theorem gateDecision_verdict_isSome (sections : Runner.Sections)
    (pdf : Runner.PdfEnv) (s : Summary)
    (h : (Runner.gateDecision sections pdf s).gateVerdict.isSome) :
    sections.ams = true ∧ sections.custom = true ∧ pdf.verifyExc = false ∧
    Runner.gateDecision sections pdf s =
      ⟨Runner.initialGate s, false, some (Runner.initialGate s), some s⟩ := by
  unfold Runner.gateDecision at h ⊢
  by_cases hgate : (sections.ams && sections.custom) = true
  · by_cases hexc : pdf.verifyExc
    · simp [hgate, hexc] at h
    · obtain ⟨hams, hcust⟩ := Bool.and_eq_true_iff.mp hgate
      refine ⟨hams, hcust, by simpa using hexc, ?_⟩
      simp [hgate, hexc]
  · simp [hgate] at h

theorem gateDecision_errored (sections : Runner.Sections)
    (pdf : Runner.PdfEnv) (s : Summary)
    (h : (Runner.gateDecision sections pdf s).gateErrored = true) :
    Runner.gateDecision sections pdf s = ⟨true, true, none, none⟩ := by
  unfold Runner.gateDecision at h ⊢
  by_cases hgate : (sections.ams && sections.custom) = true
  · by_cases hexc : pdf.verifyExc
    · simp [hgate, hexc]
    · simp [hgate, hexc] at h
  · simp [hgate] at h

theorem gateDecision_exc (sections : Runner.Sections) (pdf : Runner.PdfEnv)
    (s : Summary) (hams : sections.ams = true) (hcust : sections.custom = true)
    (hexc : pdf.verifyExc = true) :
    Runner.gateDecision sections pdf s = ⟨true, true, none, none⟩ := by
  simp [Runner.gateDecision, hams, hcust, hexc]

theorem pdfBase_fields (sections : Runner.Sections) (pdf : Runner.PdfEnv)
    (s : Summary) :
    (Runner.pdfBase sections pdf s).summary = s ∧
    (Runner.pdfBase sections pdf s).gateErrored =
      (Runner.gateDecision sections pdf s).gateErrored ∧
    (Runner.pdfBase sections pdf s).gateVerdict =
      (Runner.gateDecision sections pdf s).gateVerdict ∧
    (Runner.pdfBase sections pdf s).gateSummary =
      (Runner.gateDecision sections pdf s).gateSummary ∧
    (Runner.pdfBase sections pdf s).shouldDownload =
      some (Runner.gateDecision sections pdf s).should_download ∧
    (Runner.pdfBase sections pdf s).downloadCalled = false := by
  simp [Runner.pdfBase, Runner.pdfNoOp]

theorem runPdfStage_guardFail (sections : Runner.Sections)
    (pdf : Runner.PdfEnv) (s : Summary) (ed : Option Runner.EntriesResult)
    (h : sections.download_7501_pdf = false ∨
      Runner.entriesNotFoundFlag ed = true ∨ Runner.entryRowsOf ed = [] ∨
      pdf.storageCookies = []) :
    Runner.runPdfStage sections pdf s ed = Runner.pdfNoOp s := by
  unfold Runner.runPdfStage
  rcases h with h | h | h | h
  · simp [h]
  · by_cases hdl : sections.download_7501_pdf <;> simp [hdl, h]
  · by_cases hdl : sections.download_7501_pdf <;>
      by_cases hnf : Runner.entriesNotFoundFlag ed <;> simp [hdl, hnf, h]
  · by_cases hdl : sections.download_7501_pdf <;>
      by_cases hnf : Runner.entriesNotFoundFlag ed <;>
        by_cases hrows : Runner.entryRowsOf ed = [] <;> simp [hdl, hnf, hrows, h]

theorem runPdfStage_guardPass (sections : Runner.Sections)
    (pdf : Runner.PdfEnv) (s : Summary) (ed : Option Runner.EntriesResult)
    (hdl : sections.download_7501_pdf = true)
    (hnf : Runner.entriesNotFoundFlag ed = false)
    (hrows : Runner.entryRowsOf ed ≠ [])
    (hck : pdf.storageCookies ≠ []) :
    Runner.runPdfStage sections pdf s ed =
      if ¬(Runner.gateDecision sections pdf s).should_download
      then Runner.pdfBase sections pdf s
      else Runner.pdfDownloadFlow pdf s (Runner.pdfBase sections pdf s) := by
  simp [Runner.runPdfStage, hdl, hnf, hrows, hck]

theorem runPdfStage_gate_spec (sections : Runner.Sections)
    (pdf : Runner.PdfEnv) (s : Summary) (ed : Option Runner.EntriesResult)
    (h : (Runner.runPdfStage sections pdf s ed).gateVerdict.isSome) :
    sections.ams = true ∧ sections.custom = true ∧
    (Runner.runPdfStage sections pdf s ed).gateSummary = some s ∧
    (Runner.runPdfStage sections pdf s ed).gateVerdict =
      some (Runner.initialGate s) := by
  by_cases hdl : sections.download_7501_pdf
  · by_cases hnf : Runner.entriesNotFoundFlag ed
    · rw [runPdfStage_guardFail sections pdf s ed (Or.inr (Or.inl hnf))] at h
      simp [Runner.pdfNoOp] at h
    · by_cases hrows : Runner.entryRowsOf ed = []
      · rw [runPdfStage_guardFail sections pdf s ed (Or.inr (Or.inr (Or.inl hrows)))] at h
        simp [Runner.pdfNoOp] at h
      · by_cases hck : pdf.storageCookies = []
        · rw [runPdfStage_guardFail sections pdf s ed
            (Or.inr (Or.inr (Or.inr hck)))] at h
          simp [Runner.pdfNoOp] at h
        · have heq := runPdfStage_guardPass sections pdf s ed hdl
            (by simpa using hnf) hrows hck
          by_cases hsd : (Runner.gateDecision sections pdf s).should_download = true
          · rw [heq, if_neg (by simp [hsd])] at h ⊢
            have hb := pdfBase_fields sections pdf s
            have hf := pdfDownloadFlow_gateFields pdf s (Runner.pdfBase sections pdf s)
            rw [hf.2.1, hb.2.2.1] at h
            obtain ⟨hams, hcust, hexc, hdec⟩ := gateDecision_verdict_isSome sections pdf s h
            exact ⟨hams, hcust, by rw [hf.2.2.1, hb.2.2.2.1, hdec],
              by rw [hf.2.1, hb.2.2.1, hdec]⟩
          · rw [heq, if_pos hsd] at h ⊢
            have hb := pdfBase_fields sections pdf s
            rw [hb.2.2.1] at h
            obtain ⟨hams, hcust, hexc, hdec⟩ := gateDecision_verdict_isSome sections pdf s h
            exact ⟨hams, hcust, by rw [hb.2.2.2.1, hdec], by rw [hb.2.2.1, hdec]⟩
  · rw [runPdfStage_guardFail sections pdf s ed (Or.inl (by simpa using hdl))] at h
    simp [Runner.pdfNoOp] at h

theorem runPdfStage_cases (sections : Runner.Sections) (pdf : Runner.PdfEnv)
    (s : Summary) (ed : Option Runner.EntriesResult) :
    Runner.runPdfStage sections pdf s ed = Runner.pdfNoOp s ∨
    Runner.runPdfStage sections pdf s ed =
      (if ¬(Runner.gateDecision sections pdf s).should_download
       then Runner.pdfBase sections pdf s
       else Runner.pdfDownloadFlow pdf s (Runner.pdfBase sections pdf s)) := by
  by_cases hdl : sections.download_7501_pdf
  · by_cases hnf : Runner.entriesNotFoundFlag ed
    · exact Or.inl (runPdfStage_guardFail sections pdf s ed (Or.inr (Or.inl hnf)))
    · by_cases hrows : Runner.entryRowsOf ed = []
      · exact Or.inl
          (runPdfStage_guardFail sections pdf s ed (Or.inr (Or.inr (Or.inl hrows))))
      · by_cases hck : pdf.storageCookies = []
        · exact Or.inl
            (runPdfStage_guardFail sections pdf s ed (Or.inr (Or.inr (Or.inr hck))))
        · exact Or.inr
            (runPdfStage_guardPass sections pdf s ed hdl (by simpa using hnf) hrows hck)
  · exact Or.inl (runPdfStage_guardFail sections pdf s ed (Or.inl (by simpa using hdl)))

theorem runPdfStage_gateFalse (sections : Runner.Sections)
    (pdf : Runner.PdfEnv) (s : Summary) (ed : Option Runner.EntriesResult)
    (h : (Runner.runPdfStage sections pdf s ed).gateVerdict = some false) :
    (Runner.runPdfStage sections pdf s ed).downloadCalled = false ∧
    (Runner.runPdfStage sections pdf s ed).summary = s ∧
    (Runner.runPdfStage sections pdf s ed).shouldDownload = some false := by
  have hg := runPdfStage_gate_spec sections pdf s ed (by rw [h]; rfl)
  have hgate : Runner.initialGate s = false := by
    have := hg.2.2.2
    rw [h] at this
    exact (Option.some.inj this).symm
  rcases runPdfStage_cases sections pdf s ed with hc | hc
  · rw [hc] at h
    simp [Runner.pdfNoOp] at h
  · have hdec := gateDecision_verdict_isSome sections pdf s (by
      rcases runPdfStage_cases sections pdf s ed with hc2 | hc2
      · rw [hc2] at h; simp [Runner.pdfNoOp] at h
      · rw [hc2] at h
        by_cases hsd : (Runner.gateDecision sections pdf s).should_download = true
        · rw [if_neg (by simp [hsd])] at h
          have hf := pdfDownloadFlow_gateFields pdf s (Runner.pdfBase sections pdf s)
          have hb := pdfBase_fields sections pdf s
          rw [hf.2.1, hb.2.2.1] at h
          rw [h]; rfl
        · rw [if_pos hsd] at h
          have hb := pdfBase_fields sections pdf s
          rw [hb.2.2.1] at h
          rw [h]; rfl)
    have hsd : (Runner.gateDecision sections pdf s).should_download = false := by
      rw [hdec.2.2.2]
      exact hgate
    rw [hc, if_pos (by simp [hsd])]
    have hb := pdfBase_fields sections pdf s
    refine ⟨hb.2.2.2.2.2, hb.1, ?_⟩
    rw [hb.2.2.2.2.1, hdec.2.2.2]
    exact congrArg some hgate

theorem runPdfStage_exc (sections : Runner.Sections) (pdf : Runner.PdfEnv)
    (s : Summary) (ed : Option Runner.EntriesResult)
    (hams : sections.ams = true) (hcust : sections.custom = true)
    (hexc : pdf.verifyExc = true)
    (hsome : (Runner.runPdfStage sections pdf s ed).shouldDownload.isSome) :
    (Runner.runPdfStage sections pdf s ed).shouldDownload = some true ∧
    (Runner.runPdfStage sections pdf s ed).gateErrored = true ∧
    (Runner.runPdfStage sections pdf s ed).gateVerdict = none ∧
    (Runner.runPdfStage sections pdf s ed).downloadCalled = true := by
  have hdec := gateDecision_exc sections pdf s hams hcust hexc
  rcases runPdfStage_cases sections pdf s ed with hc | hc
  · rw [hc] at hsome
    simp [Runner.pdfNoOp] at hsome
  · have hsd : (Runner.gateDecision sections pdf s).should_download = true := by
      rw [hdec]
    rw [hc, if_neg (by simp [hsd])]
    have hb := pdfBase_fields sections pdf s
    have hf := pdfDownloadFlow_gateFields pdf s (Runner.pdfBase sections pdf s)
    refine ⟨?_, ?_, ?_, hf.2.2.2.2⟩
    · rw [hf.2.2.2.1, hb.2.2.2.2.1, hdec]
    · rw [hf.1, hb.2.1, hdec]
    · rw [hf.2.1, hb.2.2.1, hdec]

theorem runPdfStage_values (sections : Runner.Sections) (pdf : Runner.PdfEnv)
    (s : Summary) (ed : Option Runner.EntriesResult) (c : Nat) (dq : ℚ)
    (hdc : (Runner.runPdfStage sections pdf s ed).downloadCalled = true)
    (hok : pdf.downloadResult = .ok true)
    (hex : pdf.extractResult = .ok (c, dq)) :
    (Runner.runPdfStage sections pdf s ed).summary.getKey?
        "7501 Total T-11 Entries" = some (toString c) ∧
    (Runner.runPdfStage sections pdf s ed).summary.getKey? "7501 Duty" =
      some (fmt2 dq) := by
  rcases runPdfStage_cases sections pdf s ed with hc | hc
  · rw [hc] at hdc
    simp [Runner.pdfNoOp] at hdc
  · rw [hc] at hdc ⊢
    by_cases hsd : (Runner.gateDecision sections pdf s).should_download = true
    · rw [if_neg (by simp [hsd])] at hdc ⊢
      exact pdfDownloadFlow_values pdf s (Runner.pdfBase sections pdf s) c dq hok hex
    · rw [if_pos hsd] at hdc
      have hb := pdfBase_fields sections pdf s
      rw [hb.2.2.2.2.2] at hdc
      exact absurd hdc (by simp)

theorem runPdfStage_isSome2 (sections : Runner.Sections) (pdf : Runner.PdfEnv)
    (s : Summary) (ed : Option Runner.EntriesResult) (k : String)
    (h : (s.getKey? k).isSome) :
    ((Runner.runPdfStage sections pdf s ed).summary.getKey? k).isSome := by
  rcases runPdfStage_cases sections pdf s ed with hc | hc
  · rw [hc]
    simpa [Runner.pdfNoOp] using h
  · rw [hc]
    by_cases hsd : (Runner.gateDecision sections pdf s).should_download = true
    · rw [if_neg (by simp [hsd])]
      exact pdfDownloadFlow_isSome pdf s (Runner.pdfBase sections pdf s) k h
        (pdfBase_fields sections pdf s).1
    · rw [if_pos hsd]
      rw [(pdfBase_fields sections pdf s).1]
      exact h

theorem process_ok_inv (mawb : String) (sections : Runner.Sections)
    (env : Runner.Env) (cb : Option String)
    (r : Runner.DutyRunResult) (t : Runner.Trace)
    (hrun : Runner.process_mawb mawb sections env cb = .ok (r, t)) :
    (r, t) = Runner.processWithDigits (⟨digitsOf mawb⟩ : String) sections env cb := by
  unfold Runner.process_mawb Runner.normalize_mawb at hrun
  by_cases hlen : (digitsOf mawb).length ≠ 11
  · simp [hlen] at hrun
  · simp only [hlen, if_false] at hrun
    exact (Except.ok.inj hrun).symm

theorem processWithDigits_split (digits : String) (sections : Runner.Sections)
    (env : Runner.Env) (cb : Option String) :
    ((Runner.processWithDigits digits sections env cb).2.shortCircuited = true ∧
     (Runner.processWithDigits digits sections env cb).1.status = some "failed" ∧
     (Runner.processWithDigits digits sections env cb).1.error_message =
       some "Master not found" ∧
     (Runner.processWithDigits digits sections env cb).2.entriesRan = false ∧
     (Runner.processWithDigits digits sections env cb).2.customCalled = false ∧
     (Runner.processWithDigits digits sections env cb).2.pdfOut =
       Runner.pdfNoOp ((Runner.processWithDigits digits sections env cb).1.summary) ∧
     sections.ams = true ∧
     (Runner.processWithDigits digits sections env cb).1.summary =
       Runner.runAmsStage sections env.ams (Runner.initSummary digits cb)) ∨
    ((Runner.processWithDigits digits sections env cb).2.shortCircuited = false ∧
     (Runner.processWithDigits digits sections env cb).1.status = none ∧
     (Runner.processWithDigits digits sections env cb).1.error_message = none ∧
     (Runner.processWithDigits digits sections env cb).2.pdfOut =
       Runner.runPdfStage sections env.pdf
         (Runner.runCustomStage sections env.custom
           (Runner.runEntriesStage sections env.entries
             (Runner.runAmsStage sections env.ams (Runner.initSummary digits cb))).1
           (Runner.runEntriesStage sections env.entries
             (Runner.runAmsStage sections env.ams (Runner.initSummary digits cb))).2).1
         (Runner.runEntriesStage sections env.entries
           (Runner.runAmsStage sections env.ams (Runner.initSummary digits cb))).2 ∧
     (Runner.processWithDigits digits sections env cb).1.summary =
       (Runner.processWithDigits digits sections env cb).2.pdfOut.summary) := by
  unfold Runner.processWithDigits
  by_cases hsc : sections.ams = true ∧
      (Runner.runAmsStage sections env.ams
        (Runner.initSummary digits cb)).getKey? "Master Status" = some "Not Found"
  · left
    simp [hsc, hsc.1]
  · right
    simp [hsc]

theorem runAmsStage_getKey?_ne (sections : Runner.Sections)
    (env : Runner.AmsEnv) (s : Summary) (k : String) (h : k ∉ amsWriteKeys) :
    (Runner.runAmsStage sections env s).getKey? k = s.getKey? k := by
  unfold Runner.runAmsStage
  by_cases ha : sections.ams
  · simpa [ha] using processAms_getKey?_ne env s k h
  · simp [ha]

theorem runEntriesStage_getKey?_ne (sections : Runner.Sections)
    (env : Runner.EntriesEnv) (s : Summary) (k : String)
    (h1 : k ≠ "Entries Status") (h2 : k ≠ "Entry Date") :
    (Runner.runEntriesStage sections env s).1.getKey? k = s.getKey? k := by
  unfold Runner.runEntriesStage
  by_cases he : (sections.entries || sections.custom || sections.download_7501_pdf) = true
  · simp only [he, if_true]
    have hpre := processEntries_getKey?_ne env s k h1 h2
    rcases hps : Runner.processEntriesSectionHttp env s with ⟨s2, r⟩
    rw [hps] at hpre
    cases r with
    | ok v => simpa using hpre
    | error e => simpa using hpre
  · simp [he]

theorem initSummary_getKey?_url (digits : String) (cb : Option String) :
    (Runner.initSummary digits cb).getKey? "7501 Batch PDF URL" = some "N/A" := by
  simp [Runner.initSummary, Summary.getKey?]

theorem initSummary_hasKeys (digits : String) (cb : Option String) :
    ∀ k ∈ Fixtures.summaryKeys, ((Runner.initSummary digits cb).getKey? k).isSome := by
  intro k hk
  simp only [Fixtures.summaryKeys, List.mem_cons, List.not_mem_nil, or_false] at hk
  rcases hk with rfl | rfl | rfl | rfl | rfl | rfl | rfl | rfl | rfl | rfl | rfl |
    rfl | rfl | rfl | rfl | rfl | rfl <;>
    simp [Runner.initSummary, Summary.getKey?]

theorem absDiffLeCenti_iff (a b : ℚ) :
    absDiffLeCenti a b = true ↔ |a - b| ≤ 1 / 100 := by
  unfold absDiffLeCenti
  rw [decide_eq_true_eq]
  have hda : (0 : ℚ) < (a.den : ℚ) := by exact_mod_cast a.den_pos
  have hdb : (0 : ℚ) < (b.den : ℚ) := by exact_mod_cast b.den_pos
  have hsub : a - b =
      ((a.num * (b.den : ℤ) - b.num * (a.den : ℤ) : ℤ) : ℚ) /
        (((a.den * b.den : ℕ) : ℕ) : ℚ) := by
    conv_lhs => rw [← Rat.num_div_den a, ← Rat.num_div_den b]
    rw [div_sub_div _ _ (ne_of_gt hda) (ne_of_gt hdb)]
    push_cast
    ring_nf
  rw [hsub]
  have hD : (0 : ℚ) < (((a.den * b.den : ℕ) : ℕ) : ℚ) := by
    push_cast
    exact mul_pos hda hdb
  rw [abs_div, abs_of_pos hD, div_le_div_iff₀ hD (by norm_num : (0:ℚ) < 100)]
  constructor
  · intro h
    have habs : (((a.num * (b.den : ℤ) - b.num * (a.den : ℤ)).natAbs : ℕ) : ℚ) =
        |((a.num * (b.den : ℤ) - b.num * (a.den : ℤ) : ℤ) : ℚ)| :=
      by rw [Int.cast_natAbs, Int.cast_abs]
    calc |((a.num * (b.den : ℤ) - b.num * (a.den : ℤ) : ℤ) : ℚ)| * 100
        = (((a.num * (b.den : ℤ) - b.num * (a.den : ℤ)).natAbs * 100 : ℕ) : ℚ) := by
          push_cast [habs]
          ring
      _ ≤ (((a.den * b.den : ℕ) : ℕ) : ℚ) := by exact_mod_cast h
      _ = 1 * (((a.den * b.den : ℕ) : ℕ) : ℚ) := by ring
  · intro h
    have h2 : |((a.num * (b.den : ℤ) - b.num * (a.den : ℤ) : ℤ) : ℚ)| * 100 ≤
        (((a.den * b.den : ℕ) : ℕ) : ℚ) := by
      calc |((a.num * (b.den : ℤ) - b.num * (a.den : ℤ) : ℤ) : ℚ)| * 100
          ≤ 1 * (((a.den * b.den : ℕ) : ℕ) : ℚ) := h
        _ = (((a.den * b.den : ℕ) : ℕ) : ℚ) := by ring
    have h3 : (((a.num * (b.den : ℤ) - b.num * (a.den : ℤ)).natAbs * 100 : ℕ) : ℚ) ≤
        (((a.den * b.den : ℕ) : ℕ) : ℚ) := by
      have habs : (((a.num * (b.den : ℤ) - b.num * (a.den : ℤ)).natAbs : ℕ) : ℚ) =
          |((a.num * (b.den : ℤ) - b.num * (a.den : ℤ) : ℤ) : ℚ)| :=
        by rw [Int.cast_natAbs, Int.cast_abs]
      calc (((a.num * (b.den : ℤ) - b.num * (a.den : ℤ)).natAbs * 100 : ℕ) : ℚ)
          = |((a.num * (b.den : ℤ) - b.num * (a.den : ℤ) : ℤ) : ℚ)| * 100 := by
            push_cast [habs]
            ring
        _ ≤ (((a.den * b.den : ℕ) : ℕ) : ℚ) := h2
    exact_mod_cast h3

/-! ## Claim theorems -/

/-- C1: on a MAWB whose AMS search response contains "there is no awb",
the pipeline skips the Entries, Custom Report and PDF stages and returns
a DutyRunResult with status failed and error_message "Master not found"
exactly as the claim says; but the persisting layer
(StandaloneDutyService.process_mawb, duty_service.py lines 384-395)
ignores that status and upserts the row with status "success" and no
error_message, so the persisted Result does not have status failed. -/
theorem C1_master_not_found_eval :
    Runner.process_mawb "235-94731221" Fixtures.allSections Fixtures.envNotFound
        (some "4250") = .ok Fixtures.notFoundPair ∧
    strContains (pyLower Fixtures.envNotFound.ams.searchHtml.pageText)
        "there is no awb" = true ∧
    Fixtures.notFoundPair.1.status = some "failed" ∧
    Fixtures.notFoundPair.1.error_message = some "Master not found" ∧
    Fixtures.notFoundPair.2.entriesRan = false ∧
    Fixtures.notFoundPair.2.customCalled = false ∧
    Fixtures.notFoundPair.2.pdfOut.downloadCalled = false ∧
    (DutyService.persistResult Fixtures.notFoundPair.1).status = "success" ∧
    (DutyService.persistResult Fixtures.notFoundPair.1).error_message = none :=
  ⟨rfl, rfl, rfl, rfl, rfl, rfl, rfl, rfl, rfl⟩

/-- C2: parse_mawb_input of input_parser.py raises a TypeError on the
specification's own five-column fixture line, because the fifth column
"235-94731221" has no run of eleven consecutive digits, the five-column
check at line 64 therefore sets mawb_raw to None, and
normalize_mawb(None) raises a TypeError that the `except ValueError`
clause at line 195 does not catch.  With an undashed master the same
line parses to one item, as the claim expects of well-formed lines. -/
theorem C2_parser_raises_on_spec_fixture :
    InputParser.parse_mawb_input "ORD\tMZZ\tBKR\t4250\t235-94731221" =
      .error .typeError ∧
    InputParser.parse_mawb_input "ORD\tMZZ\tBKR\t4250\t23594731221" =
      .ok [{ mawb := "23594731221", airport_code := some "ORD",
             customer := some "MZZ", checkbook_hawbs := some "4250" }] :=
  ⟨rfl, rfl⟩

/-- C3: whenever the 7501 batch PDF download succeeds and the extraction
returns a pair, the pipeline stores the entry count and the duty in the
summary unconditionally, zero values included. -/
theorem C3_pdf_extraction_unconditional (mawb : String)
    (sections : Runner.Sections) (env : Runner.Env) (cb : Option String)
    (r : Runner.DutyRunResult) (t : Runner.Trace) (c : Nat) (dq : ℚ)
    (hrun : Runner.process_mawb mawb sections env cb = .ok (r, t))
    (hdc : t.pdfOut.downloadCalled = true)
    (hok : env.pdf.downloadResult = .ok true)
    (hex : env.pdf.extractResult = .ok (c, dq)) :
    r.summary.getKey? "7501 Total T-11 Entries" = some (toString c) ∧
    r.summary.getKey? "7501 Duty" = some (fmt2 dq) := by
  have hinv := process_ok_inv mawb sections env cb r t hrun
  have hr : r = (Runner.processWithDigits ⟨digitsOf mawb⟩ sections env cb).1 := by
    rw [← hinv]
  have ht : t = (Runner.processWithDigits ⟨digitsOf mawb⟩ sections env cb).2 := by
    rw [← hinv]
  rcases processWithDigits_split (⟨digitsOf mawb⟩ : String) sections env cb with hsc | hm
  · rw [ht, hsc.2.2.2.2.2.1] at hdc
    simp [Runner.pdfNoOp] at hdc
  · rw [ht, hm.2.2.2.1] at hdc
    have hv := runPdfStage_values sections env.pdf _ _ c dq hdc hok hex
    rw [hr, hm.2.2.2.2, hm.2.2.2.1]
    exact hv

/-- Witness for C3 at the zero-extraction fixture: both fields are set
even though the extracted values are zero. -/
theorem C3_witness :
    Fixtures.zeroPair.1.summary.getKey? "7501 Total T-11 Entries" =
      some (toString (0 : Nat)) ∧
    Fixtures.zeroPair.1.summary.getKey? "7501 Duty" = some (fmt2 0) :=
  C3_pdf_extraction_unconditional "235-94731221" Fixtures.allSections
    Fixtures.envZero (some "4250") Fixtures.zeroPair.1 Fixtures.zeroPair.2
    0 0 rfl rfl rfl rfl

/-- C4 counterexample: a run in which the pre-PDF gate was required,
evaluated, and failed, with download_7501_pdf enabled, leaves the
summary key "7501 Batch PDF URL" at its initial value "N/A", which is
not the empty string the claim requires; the result is still persisted
with status success. -/
theorem C4_counterexample :
    Runner.process_mawb "235-94731221" Fixtures.allSections Fixtures.envGateFail
        (some "4250") = .ok Fixtures.gateFailPair ∧
    Fixtures.allSections.download_7501_pdf = true ∧
    Fixtures.gateFailPair.2.pdfOut.gateVerdict = some false ∧
    Fixtures.gateFailPair.1.summary.getKey? "7501 Batch PDF URL" = some "N/A" ∧
    ("N/A" : String) ≠ "" ∧
    (DutyService.persistResult Fixtures.gateFailPair.1).status = "success" :=
  ⟨rfl, rfl, rfl, rfl, by decide, rfl⟩

/-- C4 (amended): when the pre-PDF gate was required, evaluated and
failed, the PDF stage is skipped and "7501 Batch PDF URL" keeps its
initial value "N/A" (no URL is ever produced; the value is not the
empty string ""), and the persisted Result still has status success.
The hypothesis on the custom report excludes the (never occurring in
the source parsers) case of a report dictionary binding the URL key. -/
theorem C4_amended (mawb : String) (sections : Runner.Sections)
    (env : Runner.Env) (cb : Option String)
    (r : Runner.DutyRunResult) (t : Runner.Trace)
    (hrun : Runner.process_mawb mawb sections env cb = .ok (r, t))
    (hfail : t.pdfOut.gateVerdict = some false)
    (hrep : ∀ kv ∈ env.custom.reportOf, kv.1 ≠ "7501 Batch PDF URL") :
    r.summary.getKey? "7501 Batch PDF URL" = some "N/A" ∧
    (DutyService.persistResult r).status = "success" := by
  refine ⟨?_, rfl⟩
  have hinv := process_ok_inv mawb sections env cb r t hrun
  have hr : r = (Runner.processWithDigits ⟨digitsOf mawb⟩ sections env cb).1 := by
    rw [← hinv]
  have ht : t = (Runner.processWithDigits ⟨digitsOf mawb⟩ sections env cb).2 := by
    rw [← hinv]
  rcases processWithDigits_split (⟨digitsOf mawb⟩ : String) sections env cb with hsc | hm
  · rw [ht, hsc.2.2.2.2.2.1] at hfail
    simp [Runner.pdfNoOp] at hfail
  · rw [ht, hm.2.2.2.1] at hfail
    have hgf := runPdfStage_gateFalse sections env.pdf _ _ hfail
    rw [hr, hm.2.2.2.2, hm.2.2.2.1, hgf.2.1]
    rw [runCustomStage_getKey?_ne sections env.custom _ _ _ hrep]
    rw [runEntriesStage_getKey?_ne sections env.entries _ _ (by decide) (by decide)]
    rw [runAmsStage_getKey?_ne sections env.ams _ _ (by decide)]
    exact initSummary_getKey?_url _ cb

/-- Witness for C4 (amended) at the house-mismatch fixture. -/
theorem C4_amended_witness :
    Fixtures.gateFailPair.1.summary.getKey? "7501 Batch PDF URL" = some "N/A" ∧
    (DutyService.persistResult Fixtures.gateFailPair.1).status = "success" :=
  C4_amended "235-94731221" Fixtures.allSections Fixtures.envGateFail
    (some "4250") Fixtures.gateFailPair.1 Fixtures.gateFailPair.2 rfl rfl
    (by decide)

/-- C5 counterexample: a successful AMS section writes the extra key
"AMS Arrival Date" (playwright_runner.py line 1419), which is not among
the seventeen keys of spec section 6, so the summary of a happy-path run
does not contain exactly those seventeen keys. -/
theorem C5_counterexample :
    Runner.process_mawb "235-94731221" Fixtures.allSections Fixtures.envHappy
        (some "4250") = .ok Fixtures.happyPair ∧
    Fixtures.happyPair.1.summary.getKey? "AMS Arrival Date" = some "01/01/25" ∧
    Fixtures.summaryKeys.contains "AMS Arrival Date" = false :=
  ⟨rfl, rfl, by decide⟩

/-- C5 (amended): every pipeline run returns a summary that contains at
least the seventeen keys of spec section 6 (they are initialized up
front and never removed); runs may add further keys such as
"AMS Arrival Date", "Master Status" and "Entries Status". -/
theorem C5_amended (mawb : String) (sections : Runner.Sections)
    (env : Runner.Env) (cb : Option String)
    (r : Runner.DutyRunResult) (t : Runner.Trace)
    (hrun : Runner.process_mawb mawb sections env cb = .ok (r, t)) :
    ∀ k ∈ Fixtures.summaryKeys, (r.summary.getKey? k).isSome := by
  intro k hk
  have hinv := process_ok_inv mawb sections env cb r t hrun
  have hr : r = (Runner.processWithDigits ⟨digitsOf mawb⟩ sections env cb).1 := by
    rw [← hinv]
  have h0 := initSummary_hasKeys (⟨digitsOf mawb⟩ : String) cb k hk
  have h1 := runAmsStage_isSome sections env.ams
    (Runner.initSummary ⟨digitsOf mawb⟩ cb) k h0
  rcases processWithDigits_split (⟨digitsOf mawb⟩ : String) sections env cb with hsc | hm
  · rw [hr, hsc.2.2.2.2.2.2.2]
    exact h1
  · have h2 := runEntriesStage_isSome sections env.entries _ k h1
    have h3 := runCustomStage_isSome sections env.custom _
      (Runner.runEntriesStage sections env.entries
        (Runner.runAmsStage sections env.ams
          (Runner.initSummary ⟨digitsOf mawb⟩ cb))).2 k h2
    have h4 := runPdfStage_isSome2 sections env.pdf _
      (Runner.runEntriesStage sections env.entries
        (Runner.runAmsStage sections env.ams
          (Runner.initSummary ⟨digitsOf mawb⟩ cb))).2 k h3
    rw [hr, hm.2.2.2.2, hm.2.2.2.1]
    exact h4

/-- Witness for C5 (amended) at the happy-path fixture. -/
theorem C5_amended_witness :
    (Fixtures.happyPair.1.summary.getKey? "7501 Duty").isSome = true :=
  C5_amended "235-94731221" Fixtures.allSections Fixtures.envHappy
    (some "4250") Fixtures.happyPair.1 Fixtures.happyPair.2 rfl
    "7501 Duty" (by decide)

theorem pdfDownloadFlow_url (pdf : Runner.PdfEnv) (s : Summary)
    (base : Runner.PdfStageOut) (p url : String)
    (hok : pdf.downloadResult = .ok true)
    (hup : pdf.uploadResult = .ok (p, url))
    (h1 : url ≠ "") (h2 : pyStrip url ≠ "") :
    (Runner.pdfDownloadFlow pdf s base).summary.getKey? "7501 Batch PDF URL" =
      some url := by
  unfold Runner.pdfDownloadFlow
  rw [hok, hup]
  cases hex : pdf.extractResult with
  | error e =>
    simp only []
    rw [if_pos ⟨h1, h2⟩, getKey?_setKey_self]
  | ok cd =>
    obtain ⟨c, d⟩ := cd
    simp only []
    rw [if_pos ⟨h1, h2⟩, getKey?_setKey_self]

/-- C6: the pre-PDF gate is evaluated only when both the ams and custom
sections ran; its verdict is true exactly when the four house counts
parse to equal numbers, the rejected entries parse to zero, and the AMS
and report duties differ by at most 0.01; and a failing verdict skips
the PDF download. -/
theorem C6_pre_pdf_gate (mawb : String) (sections : Runner.Sections)
    (env : Runner.Env) (cb : Option String)
    (r : Runner.DutyRunResult) (t : Runner.Trace)
    (hrun : Runner.process_mawb mawb sections env cb = .ok (r, t)) :
    (t.pdfOut.gateVerdict.isSome →
      sections.ams = true ∧ sections.custom = true) ∧
    (∀ v gs, t.pdfOut.gateVerdict = some v → t.pdfOut.gateSummary = some gs →
      (v = true ↔
        (Runner.parseValue (gs.getKey? "AMS Total HAWBs") =
            Runner.parseValue (gs.getKey? "7501 Total Houses") ∧
          Runner.parseValue (gs.getKey? "7501 Total Houses") =
            Runner.parseValue (gs.getKey? "Report Total House") ∧
          Runner.parseValue (gs.getKey? "Report Total House") =
            Runner.parseValue (gs.getKey? "Checkbook HAWBs")) ∧
        Runner.parseValue (gs.getKey? "Rejected Entries") = 0 ∧
        |Runner.parseValue (gs.getKey? "AMS Duty") -
            Runner.parseValue (gs.getKey? "Report Duty")| ≤ 1 / 100)) ∧
    (t.pdfOut.gateVerdict = some false → t.pdfOut.downloadCalled = false) := by
  have hinv := process_ok_inv mawb sections env cb r t hrun
  have ht : t = (Runner.processWithDigits ⟨digitsOf mawb⟩ sections env cb).2 := by
    rw [← hinv]
  rcases processWithDigits_split (⟨digitsOf mawb⟩ : String) sections env cb with hsc | hm
  · rw [ht, hsc.2.2.2.2.2.1]
    refine ⟨?_, ?_, ?_⟩ <;> simp [Runner.pdfNoOp]
  · rw [ht, hm.2.2.2.1]
    refine ⟨?_, ?_, ?_⟩
    · intro h
      have hg := runPdfStage_gate_spec sections env.pdf _ _ h
      exact ⟨hg.1, hg.2.1⟩
    · intro v gs hv hgs
      have hg := runPdfStage_gate_spec sections env.pdf _ _ (by rw [hv]; rfl)
      have hgseq : gs =
          (Runner.runCustomStage sections env.custom
            (Runner.runEntriesStage sections env.entries
              (Runner.runAmsStage sections env.ams
                (Runner.initSummary ⟨digitsOf mawb⟩ cb))).1
            (Runner.runEntriesStage sections env.entries
              (Runner.runAmsStage sections env.ams
                (Runner.initSummary ⟨digitsOf mawb⟩ cb))).2).1 := by
        have := hg.2.2.1
        rw [hgs] at this
        exact Option.some.inj this
      have hveq : v = Runner.initialGate gs := by
        have := hg.2.2.2
        rw [hv] at this
        rw [hgseq]
        exact Option.some.inj this
      rw [hveq]
      unfold Runner.initialGate
      rw [Bool.and_eq_true, Bool.and_eq_true, decide_eq_true_eq, decide_eq_true_eq,
        absDiffLeCenti_iff]
      constructor
      · rintro ⟨⟨heq, hrej⟩, hduty⟩
        exact ⟨heq, hrej, hduty⟩
      · rintro ⟨heq, hrej, hduty⟩
        exact ⟨⟨heq, hrej⟩, hduty⟩
    · intro hv
      exact (runPdfStage_gateFalse sections env.pdf _ _ hv).1

/-- Witness for C6 at the house-mismatch fixture: the failed verdict
skips the download. -/
theorem C6_witness :
    Fixtures.gateFailPair.2.pdfOut.downloadCalled = false := by
  have h := C6_pre_pdf_gate "235-94731221" Fixtures.allSections
    Fixtures.envGateFail (some "4250") Fixtures.gateFailPair.1
    Fixtures.gateFailPair.2 rfl
  exact h.2.2 rfl

/-- C7: the custom report begin date is the oldest entry date in MMDDYY
format, and the end date is the oldest entry date plus 25 days when
today is at least 25 days past it, else today
(playwright_runner.py lines 2678-2693, at day granularity). -/
theorem C7_custom_report_dates (today oldest_entry : Int) :
    (CustomReport.payloadDates today oldest_entry).1 =
      strftimeMMDDYY oldest_entry ∧
    (25 ≤ today - oldest_entry →
      (CustomReport.payloadDates today oldest_entry).2 =
        strftimeMMDDYY (oldest_entry + 25)) ∧
    (today - oldest_entry < 25 →
      (CustomReport.payloadDates today oldest_entry).2 = strftimeMMDDYY today) := by
  unfold CustomReport.payloadDates
  refine ⟨rfl, ?_, ?_⟩
  · intro h
    show strftimeMMDDYY
        (if today - oldest_entry ≥ 25 then oldest_entry + 25 else today) = _
    rw [if_pos h]
  · intro h
    show strftimeMMDDYY
        (if today - oldest_entry ≥ 25 then oldest_entry + 25 else today) = _
    rw [if_neg (by omega)]

/-- Witness for C7 at concrete dates 30 and 10 days apart. -/
theorem C7_witness :
    (CustomReport.payloadDates 20030 20000).1 = strftimeMMDDYY 20000 ∧
    (CustomReport.payloadDates 20030 20000).2 = strftimeMMDDYY 20025 ∧
    (CustomReport.payloadDates 20010 20000).2 = strftimeMMDDYY 20010 :=
  ⟨(C7_custom_report_dates 20030 20000).1,
   (C7_custom_report_dates 20030 20000).2.1 (by decide),
   (C7_custom_report_dates 20010 20000).2.2 (by decide)⟩

/-- C9: the query executor retries a retryable failure (resource
temporarily unavailable or connection error) with 0.5 times 2^k seconds
of backoff (here in milliseconds), makes at most three attempts,
recreates the client exactly after connection-classified failures, and
an operation failing retryably twice then succeeding produces success on
the third attempt. -/
theorem C9_retry_wrapper {α : Type} (oracle : Nat → DbManager.ExecOutcome α)
    (dflt data : List α) (m0 t0 m1 t1 : String)
    (h0 : oracle 0 = .exn m0 t0) (h1 : oracle 1 = .exn m1 t1)
    (h2 : oracle 2 = .okData data)
    (hr0 : (DbManager.isResourceError m0 || DbManager.isConnectionError m0 t0) = true)
    (hr1 : (DbManager.isResourceError m1 || DbManager.isConnectionError m1 t1) = true) :
    (DbManager.executeQuery oracle dflt).result =
      .ok (if data.isEmpty then dflt else data) ∧
    (DbManager.executeQuery oracle dflt).attempts = 3 ∧
    (DbManager.executeQuery oracle dflt).waitsMs = [500, 1000] ∧
    (DbManager.executeQuery oracle dflt).clientRecreated =
      (if DbManager.isConnectionError m0 t0 then 1 else 0) +
      (if DbManager.isConnectionError m1 t1 then 1 else 0) := by
  unfold DbManager.executeQuery
  simp [DbManager.execAux, h0, h1, h2, hr0, hr1]

/-- Witness for C9 at the deterministic twice-failing oracle. -/
theorem C9_witness :
    (DbManager.executeQuery Fixtures.flakyOracle ([] : List String)).result =
      .ok ["row"] ∧
    (DbManager.executeQuery Fixtures.flakyOracle ([] : List String)).attempts = 3 ∧
    (DbManager.executeQuery Fixtures.flakyOracle ([] : List String)).waitsMs =
      [500, 1000] ∧
    (DbManager.executeQuery Fixtures.flakyOracle ([] : List String)).clientRecreated
      = 0 := by
  have h := C9_retry_wrapper Fixtures.flakyOracle [] ["row"]
    "Resource temporarily unavailable" "OSError"
    "Resource temporarily unavailable" "OSError" rfl rfl rfl
    (by decide) (by decide)
  refine ⟨?_, h.2.1, h.2.2.1, ?_⟩
  · have := h.1
    simpa using this
  · have := h.2.2.2
    simpa using this

/-- C10: when the verification computation itself raises, the pipeline
fails open: should_download is set to true, no verdict is recorded, the
download is attempted, and a successful download and upload record the
presigned URL exactly as on the gate-passed path. -/
theorem C10_fail_open (mawb : String) (sections : Runner.Sections)
    (env : Runner.Env) (cb : Option String)
    (r : Runner.DutyRunResult) (t : Runner.Trace)
    (hrun : Runner.process_mawb mawb sections env cb = .ok (r, t))
    (hams : sections.ams = true) (hcust : sections.custom = true)
    (hexc : env.pdf.verifyExc = true)
    (hreach : t.pdfOut.shouldDownload.isSome) :
    t.pdfOut.shouldDownload = some true ∧
    t.pdfOut.gateErrored = true ∧
    t.pdfOut.gateVerdict = none ∧
    t.pdfOut.downloadCalled = true ∧
    (∀ p url, env.pdf.downloadResult = .ok true →
      env.pdf.uploadResult = .ok (p, url) → url ≠ "" → pyStrip url ≠ "" →
      r.summary.getKey? "7501 Batch PDF URL" = some url) := by
  have hinv := process_ok_inv mawb sections env cb r t hrun
  have hr : r = (Runner.processWithDigits ⟨digitsOf mawb⟩ sections env cb).1 := by
    rw [← hinv]
  have ht : t = (Runner.processWithDigits ⟨digitsOf mawb⟩ sections env cb).2 := by
    rw [← hinv]
  rcases processWithDigits_split (⟨digitsOf mawb⟩ : String) sections env cb with hsc | hm
  · rw [ht, hsc.2.2.2.2.2.1] at hreach
    simp [Runner.pdfNoOp] at hreach
  · rw [ht, hm.2.2.2.1] at hreach ⊢
    have hx := runPdfStage_exc sections env.pdf _ _ hams hcust hexc hreach
    refine ⟨hx.1, hx.2.1, hx.2.2.1, hx.2.2.2, ?_⟩
    intro p url hok hup h1 h2
    rcases runPdfStage_cases sections env.pdf
        (Runner.runCustomStage sections env.custom
          (Runner.runEntriesStage sections env.entries
            (Runner.runAmsStage sections env.ams
              (Runner.initSummary ⟨digitsOf mawb⟩ cb))).1
          (Runner.runEntriesStage sections env.entries
            (Runner.runAmsStage sections env.ams
              (Runner.initSummary ⟨digitsOf mawb⟩ cb))).2).1
        (Runner.runEntriesStage sections env.entries
          (Runner.runAmsStage sections env.ams
            (Runner.initSummary ⟨digitsOf mawb⟩ cb))).2 with hc | hc
    · rw [hc] at hreach
      simp [Runner.pdfNoOp] at hreach
    · have hdec := gateDecision_exc sections env.pdf
        (Runner.runCustomStage sections env.custom
          (Runner.runEntriesStage sections env.entries
            (Runner.runAmsStage sections env.ams
              (Runner.initSummary ⟨digitsOf mawb⟩ cb))).1
          (Runner.runEntriesStage sections env.entries
            (Runner.runAmsStage sections env.ams
              (Runner.initSummary ⟨digitsOf mawb⟩ cb))).2).1 hams hcust hexc
      have hsd : (Runner.gateDecision sections env.pdf
          (Runner.runCustomStage sections env.custom
            (Runner.runEntriesStage sections env.entries
              (Runner.runAmsStage sections env.ams
                (Runner.initSummary ⟨digitsOf mawb⟩ cb))).1
            (Runner.runEntriesStage sections env.entries
              (Runner.runAmsStage sections env.ams
                (Runner.initSummary ⟨digitsOf mawb⟩ cb))).2).1).should_download
          = true := by rw [hdec]
      rw [hr, hm.2.2.2.2, hm.2.2.2.1, hc, if_neg (by simp [hsd])]
      exact pdfDownloadFlow_url env.pdf _ _ p url hok hup h1 h2

/-- Witness for C10 at the fixture whose verification raises over
mismatched houses: the download proceeds and the URL is recorded. -/
theorem C10_witness :
    Fixtures.verifyExcPair.2.pdfOut.shouldDownload = some true ∧
    Fixtures.verifyExcPair.2.pdfOut.downloadCalled = true ∧
    Fixtures.verifyExcPair.1.summary.getKey? "7501 Batch PDF URL" =
      some "https://signed" := by
  have h := C10_fail_open "235-94731221" Fixtures.allSections
    Fixtures.envVerifyExc (some "4250") Fixtures.verifyExcPair.1
    Fixtures.verifyExcPair.2 rfl rfl rfl rfl rfl
  exact ⟨h.1, h.2.2.2.1, h.2.2.2.2 "7501-batch-pdfs/x.pdf" "https://signed"
    rfl rfl (by decide) (by decide)⟩

/-! ## Split and join lemmas for the vertical-paste theorem -/

theorem splitChar_no_sep (sep : Char) (cs : List Char) (h : sep ∉ cs) :
    splitChar sep cs = [cs] := by
  induction cs with
  | nil => rfl
  | cons c rest ih =>
    have hc : ¬c = sep := fun hc => h (hc ▸ List.mem_cons_self c rest)
    have hrest : sep ∉ rest := fun hm => h (List.mem_cons_of_mem c hm)
    simp [splitChar, hc, ih hrest]

theorem splitChar_append_sep (sep : Char) (g rest : List Char) (h : sep ∉ g) :
    splitChar sep (g ++ sep :: rest) = g :: splitChar sep rest := by
  induction g with
  | nil => simp [splitChar]
  | cons c g2 ih =>
    have hc : ¬c = sep := fun hc => h (hc ▸ List.mem_cons_self c g2)
    have hg2 : sep ∉ g2 := fun hm => h (List.mem_cons_of_mem c hm)
    simp only [List.cons_append, splitChar, hc, if_false]
    rw [show g2.append (sep :: rest) = g2 ++ sep :: rest from rfl, ih hg2]

theorem splitChar_joinParts (sep : Char) (gs : List (List Char))
    (hne : gs ≠ []) (hsep : ∀ g ∈ gs, sep ∉ g) :
    splitChar sep (joinParts sep gs) = gs := by
  induction gs with
  | nil => exact absurd rfl hne
  | cons g gs2 ih =>
    cases gs2 with
    | nil =>
      simp only [joinParts]
      exact splitChar_no_sep sep g (hsep g (List.mem_cons_self g []))
    | cons g2 rest =>
      simp only [joinParts]
      rw [splitChar_append_sep sep g (joinParts sep (g2 :: rest))
        (hsep g (List.mem_cons_self g (g2 :: rest)))]
      rw [ih (List.cons_ne_nil g2 rest)
        (fun x hx => hsep x (List.mem_cons_of_mem g hx))]

theorem not_mem_joinParts (sep c : Char) (gs : List (List Char))
    (hc : c ≠ sep) (h : ∀ g ∈ gs, c ∉ g) : c ∉ joinParts sep gs := by
  induction gs with
  | nil => simp [joinParts]
  | cons g gs2 ih =>
    cases gs2 with
    | nil =>
      simpa [joinParts] using h g (List.mem_cons_self g [])
    | cons g2 rest =>
      simp only [joinParts, List.mem_append, List.mem_cons]
      push_neg
      exact ⟨h g (List.mem_cons_self g (g2 :: rest)), hc,
        ih (fun x hx => h x (List.mem_cons_of_mem g hx))⟩

theorem sep_mem_joinParts (sep : Char) (g g2 : List Char)
    (rest : List (List Char)) : sep ∈ joinParts sep (g :: g2 :: rest) := by
  simp [joinParts]

theorem joinParts_reverse_head (sep : Char) (gs : List (List Char))
    (g : List Char) (hlast : gs.getLast? = some g) :
    ∃ ys, (joinParts sep gs).reverse = g.reverse ++ ys := by
  induction gs with
  | nil => simp at hlast
  | cons g0 gs2 ih =>
    cases gs2 with
    | nil =>
      simp only [List.getLast?_singleton, Option.some.injEq] at hlast
      subst hlast
      exact ⟨[], by simp [joinParts]⟩
    | cons g1 rest =>
      have hlast2 : (g1 :: rest).getLast? = some g := by
        rw [← hlast]
        exact List.getLast?_cons_cons.symm
      obtain ⟨ys, hys⟩ := ih hlast2
      refine ⟨ys ++ [sep] ++ g0.reverse, ?_⟩
      simp only [joinParts, List.reverse_append, List.reverse_cons, hys]
      simp

theorem head_false_of_dropWhile_eq (p : Char → Bool) (a : Char) (l : List Char)
    (h : (a :: l).dropWhile p = a :: l) : p a = false := by
  by_cases hp : p a = true
  · rw [List.dropWhile_cons_of_pos hp] at h
    have hlen := congrArg List.length h
    have hle := (List.dropWhile_suffix (l := l) p).length_le
    simp only [List.length_cons] at hlen
    omega
  · simpa using hp

theorem toList_ne_nil (s : String) (h : s ≠ "") : s.toList ≠ [] := by
  intro hnil
  exact h (String.ext (show s.data = "".data from hnil))

theorem pyStrip_parts (s : String) (h : pyStrip s = s) :
    s.toList.dropWhile pyIsSpace = s.toList ∧
    s.toList.reverse.dropWhile pyIsSpace = s.toList.reverse := by
  have hX : ((s.toList.dropWhile pyIsSpace).reverse.dropWhile pyIsSpace).reverse =
      s.toList := by
    have := congrArg String.toList h
    simpa [pyStrip] using this
  have hlenA : (s.toList.dropWhile pyIsSpace).length = s.toList.length := by
    have h1 := congrArg List.length hX
    have h2 := (List.dropWhile_suffix (l := s.toList) pyIsSpace).length_le
    have h3 := (List.dropWhile_suffix
      (l := (s.toList.dropWhile pyIsSpace).reverse) pyIsSpace).length_le
    simp only [List.length_reverse] at h1 h3
    omega
  have hA : s.toList.dropWhile pyIsSpace = s.toList :=
    (List.dropWhile_suffix pyIsSpace).eq_of_length hlenA
  refine ⟨hA, ?_⟩
  rw [hA] at hX
  conv_rhs => rw [← hX]
  rw [List.reverse_reverse]

theorem pyStrip_of_ends (s : String)
    (h1 : s.toList.dropWhile pyIsSpace = s.toList)
    (h2 : s.toList.reverse.dropWhile pyIsSpace = s.toList.reverse) :
    pyStrip s = s := by
  unfold pyStrip
  rw [h1, h2, List.reverse_reverse]
  exact String.ext rfl

theorem strHasChar_eq_false (s : String) (c : Char) (h : c ∉ s.toList) :
    strHasChar s c = false := by
  unfold strHasChar
  simpa using h

theorem strHasChar_eq_true (s : String) (c : Char) (h : c ∈ s.toList) :
    strHasChar s c = true := by
  unfold strHasChar
  simpa using h

theorem orNone_bind (s : String) : (orNone s).bind orNone = orNone s := by
  unfold orNone
  by_cases h : s = "" <;> simp [h]

theorem joinChar_toList (sep : Char) (parts : List String) :
    (joinChar sep parts).toList = joinParts sep (parts.map String.toList) := rfl

theorem pyStrip_joinChar (sep : Char) (ls : List String) (l0 ln : String)
    (hhead : (ls.map String.toList).head? = some l0.toList)
    (hlast : (ls.map String.toList).getLast? = some ln.toList)
    (h0 : l0 ≠ "") (h0s : pyStrip l0 = l0)
    (hn : ln ≠ "") (hns : pyStrip ln = ln) :
    pyStrip (joinChar sep ls) = joinChar sep ls := by
  apply pyStrip_of_ends
  · rw [joinChar_toList]
    rcases hgs : ls.map String.toList with _ | ⟨g, gs⟩
    · simp [hgs] at hhead
    · rw [hgs] at hhead
      have hg : g = l0.toList := by simpa using hhead
      subst hg
      rcases hl0 : l0.toList with _ | ⟨a, t⟩
      · exact absurd hl0 (toList_ne_nil l0 h0)
      · have hpa : pyIsSpace a = false := by
          have hparts := (pyStrip_parts l0 h0s).1
          rw [hl0] at hparts
          exact head_false_of_dropWhile_eq pyIsSpace a t hparts
        cases gs with
        | nil =>
          simp only [joinParts, hl0]
          exact List.dropWhile_cons_of_neg (by simp [hpa])
        | cons g2 rest =>
          simp only [joinParts, hl0, List.cons_append]
          exact List.dropWhile_cons_of_neg (by simp [hpa])
  · rw [joinChar_toList]
    obtain ⟨ys, hys⟩ := joinParts_reverse_head sep (ls.map String.toList)
      ln.toList hlast
    rw [hys]
    rcases hln : ln.toList.reverse with _ | ⟨b, t⟩
    · have : ln.toList = [] := by
        have := congrArg List.reverse hln
        simpa using this
      exact absurd this (toList_ne_nil ln hn)
    · have hpb : pyIsSpace b = false := by
        have hparts := (pyStrip_parts ln hns).2
        rw [hln] at hparts
        exact head_false_of_dropWhile_eq pyIsSpace b t hparts
      simp only [hln, List.cons_append]
      exact List.dropWhile_cons_of_neg (by simp [hpb])

theorem map_mk_toList (ls : List String) :
    ls.map (fun l => (⟨l.toList⟩ : String)) = ls := by
  induction ls with
  | nil => rfl
  | cons l rest ih =>
    simp only [List.map_cons, ih]
    rfl

theorem splitCharStr_joinChar (sep : Char) (ls : List String)
    (hne : ls ≠ []) (hsep : ∀ l ∈ ls, sep ∉ l.toList) :
    splitCharStr sep (joinChar sep ls) = ls := by
  unfold splitCharStr
  rw [joinChar_toList]
  rw [splitChar_joinParts sep (ls.map String.toList) (by simpa using hne)
    (by
      intro g hg
      obtain ⟨l, hl, rfl⟩ := List.mem_map.mp hg
      exact hsep l hl)]
  rw [List.map_map]
  exact map_mk_toList ls

theorem parseLine_five (a b c d e : String)
    (hsplit : (splitCharStr '\t' (joinChar '\t' [a, b, c, d, e])).map pyStrip =
      [a, b, c, d, e])
    (htab : strHasChar (joinChar '\t' [a, b, c, d, e]) '\t' = true)
    (he : digitCount e = 11) :
    MawbParser.parseLine (joinChar '\t' [a, b, c, d, e]) =
      some (some e, orNone a, orNone b, orNone d) := by
  unfold MawbParser.parseLine
  rw [htab]
  simp only [if_true, hsplit]
  simp [he]

theorem not_tab_of_strHasChar_false (l : String)
    (h : strHasChar l '\t' = false) : '\t' ∉ l.toList := by
  intro hm
  rw [strHasChar_eq_true l '\t' hm] at h
  exact absurd h (by simp)

theorem runLines_five_group (a b c d e : String) (rest : List String)
    (hstrip : ∀ l ∈ [a, b, c, d, e], pyStrip l = l)
    (hne_a : a ≠ "") (hne_e : e ≠ "")
    (htabs : ∀ l ∈ [a, b, c, d, e], strHasChar l '\t' = false)
    (he : digitCount e = 11) :
    MawbParser.runLines (joinChar '\t' [a, b, c, d, e] :: rest) =
      { mawb := ⟨digitsOf e⟩, airport_code := orNone a, customer := orNone b,
        checkbook_hawbs := orNone d } :: MawbParser.runLines rest := by
  have hmem : ('\t' : Char) ∈ (joinChar '\t' [a, b, c, d, e]).toList := by
    rw [joinChar_toList]
    exact sep_mem_joinParts '\t' a.toList b.toList [c.toList, d.toList, e.toList]
  have hg_strip : pyStrip (joinChar '\t' [a, b, c, d, e]) =
      joinChar '\t' [a, b, c, d, e] :=
    pyStrip_joinChar '\t' [a, b, c, d, e] a e rfl rfl hne_a
      (hstrip a (by simp)) hne_e (hstrip e (by simp))
  have htab : strHasChar (joinChar '\t' [a, b, c, d, e]) '\t' = true :=
    strHasChar_eq_true _ _ hmem
  have hg_ne : joinChar '\t' [a, b, c, d, e] ≠ "" := by
    intro hempty
    rw [hempty] at hmem
    simp at hmem
  have hsplit : (splitCharStr '\t' (joinChar '\t' [a, b, c, d, e])).map pyStrip =
      [a, b, c, d, e] := by
    rw [splitCharStr_joinChar '\t' [a, b, c, d, e] (by simp)
      (fun l hl => not_tab_of_strHasChar_false l (htabs l hl))]
    simp only [List.map_cons, List.map_nil, hstrip a (by simp), hstrip b (by simp),
      hstrip c (by simp), hstrip d (by simp), hstrip e (by simp)]
  have hpl := parseLine_five a b c d e hsplit htab he
  simp only [MawbParser.runLines, hg_strip, hg_ne, if_false, hpl]
  have hnorm : MawbParser.normalize_mawb e = .ok ⟨digitsOf e⟩ := by
    show (if (digitsOf e).length ≠ 11 then Except.error PyErr.valueError
      else Except.ok (⟨digitsOf e⟩ : String)) = Except.ok ⟨digitsOf e⟩
    rw [show (digitsOf e).length = digitCount e from rfl, he]
    simp
  simp [hnorm, orNone_bind]

theorem not_mem_of_strHasChar_false (l : String) (c : Char)
    (h : strHasChar l c = false) : c ∉ l.toList := by
  intro hm
  rw [strHasChar_eq_true l c hm] at h
  exact absurd h (by simp)

theorem parse_mawb_input_recon (text : String)
    (hstrip : pyStrip text = text) (hne : text ≠ "")
    (htab : strHasChar text '\t' = false)
    (hlen : (((splitCharStr '\n' text).map pyStrip).filter (· ≠ "")).length > 1)
    (hrecon : MawbParser.reconLoop
      (((splitCharStr '\n' text).map pyStrip).filter (· ≠ "")) ≠ []) :
    MawbParser.parse_mawb_input text =
      MawbParser.runLines (splitCharStr '\n' (joinChar '\n'
        (MawbParser.reconLoop
          (((splitCharStr '\n' text).map pyStrip).filter (· ≠ ""))))) := by
  unfold MawbParser.parse_mawb_input
  rw [if_neg (by rw [hstrip]; exact hne)]
  rw [hstrip]
  simp only [htab, hlen, Bool.not_eq_true, not_false_iff, true_and,
    Bool.false_eq_true, if_true, if_false, gt_iff_lt]
  rw [if_pos (by simpa using hrecon)]

/-- C8: counterexample.  The spec says that when neither the i+4 nor the
i+2 lookahead matches, the loop scans up to 10 lines ahead for the next
11-digit token and emits the preceding lines with it.  The code
(mawb_parser.py line 124) additionally requires the token to lie at
least two lines ahead (j - i >= 2): on the blob "a\n12345678901\nb",
whose 11-digit token is only one line ahead, the reconstruction loop
emits nothing at all, and the parse keeps no airport grouping. -/
theorem C8_counterexample :
    MawbParser.reconLoop ["a", "12345678901", "b"] = [] ∧
    MawbParser.parse_mawb_input "a\n12345678901\nb" =
      [{ mawb := "12345678901", airport_code := none, customer := none,
         checkbook_hawbs := none }] := ⟨rfl, rfl⟩

theorem lastFiveMem (a b c d e : String) : e ∈ [a, b, c, d, e] := by simp

set_option maxHeartbeats 1000000 in
/-- C8 (amended): for a tab-free vertical paste of 15 non-empty,
already-stripped, newline-free lines in alternating 5-tuple groups (the
5th, 10th and 15th lines digit-extract to 11 digits), mawb_parser.py
lines 92-164 reconstruct exactly three tab-joined 5-tuples and re-parse
them into exactly 3 items, each taking its mawb from the group's 5th
line, airport from the 1st, customer from the 2nd and checkbook hawbs
from the 4th.  The amendment drops the spec's unconditional scan-ahead
emission: the scan branch only fires for tokens at least two lines
ahead (see the counterexample). -/
theorem C8_amended (l0 l1 l2 l3 l4 l5 l6 l7 l8 l9 l10 l11 l12 l13 l14 : String)
    (hl : ∀ l ∈ [l0, l1, l2, l3, l4, l5, l6, l7, l8, l9, l10, l11, l12, l13, l14],
      l ≠ "" ∧ pyStrip l = l ∧ strHasChar l '\t' = false ∧ strHasChar l '\n' = false)
    (h4 : digitCount l4 = 11) (h9 : digitCount l9 = 11) (h14 : digitCount l14 = 11) :
    MawbParser.parse_mawb_input
        (joinChar '\n' [l0, l1, l2, l3, l4, l5, l6, l7, l8, l9, l10, l11, l12, l13, l14]) =
      [{ mawb := ⟨digitsOf l4⟩, airport_code := orNone l0, customer := orNone l1,
         checkbook_hawbs := orNone l3 },
       { mawb := ⟨digitsOf l9⟩, airport_code := orNone l5, customer := orNone l6,
         checkbook_hawbs := orNone l8 },
       { mawb := ⟨digitsOf l14⟩, airport_code := orNone l10, customer := orNone l11,
         checkbook_hawbs := orNone l13 }] := by
  have hstrip15 : ∀ l ∈ [l0, l1, l2, l3, l4, l5, l6, l7, l8, l9, l10, l11, l12, l13, l14],
      pyStrip l = l := fun l hm => (hl l hm).2.1
  have hstrip_text :
      pyStrip (joinChar '\n' [l0, l1, l2, l3, l4, l5, l6, l7, l8, l9, l10, l11, l12, l13, l14]) =
        joinChar '\n' [l0, l1, l2, l3, l4, l5, l6, l7, l8, l9, l10, l11, l12, l13, l14] :=
    pyStrip_joinChar '\n' [l0, l1, l2, l3, l4, l5, l6, l7, l8, l9, l10, l11, l12, l13, l14]
      l0 l14 rfl rfl (hl l0 (by simp)).1 (hl l0 (by simp)).2.1
      (hl l14 (by simp)).1 (hl l14 (by simp)).2.1
  have hmemnl : ('\n' : Char) ∈
      (joinChar '\n' [l0, l1, l2, l3, l4, l5, l6, l7, l8, l9, l10, l11, l12, l13, l14]).toList := by
    rw [joinChar_toList]
    exact sep_mem_joinParts '\n' l0.toList l1.toList _
  have hne_text :
      joinChar '\n' [l0, l1, l2, l3, l4, l5, l6, l7, l8, l9, l10, l11, l12, l13, l14] ≠ "" := by
    intro hempty
    rw [hempty] at hmemnl
    simp at hmemnl
  have htab_text :
      strHasChar (joinChar '\n' [l0, l1, l2, l3, l4, l5, l6, l7, l8, l9, l10, l11, l12, l13, l14])
        '\t' = false := by
    refine strHasChar_eq_false _ _ ?hnm
    rw [joinChar_toList]
    refine not_mem_joinParts '\n' '\t' _ (by decide) ?hg
    intro g hg
    obtain ⟨l, hlm, rfl⟩ := List.mem_map.mp hg
    exact not_tab_of_strHasChar_false l (hl l hlm).2.2.1
  have hsplit :
      splitCharStr '\n' (joinChar '\n' [l0, l1, l2, l3, l4, l5, l6, l7, l8, l9, l10, l11, l12, l13, l14]) =
        [l0, l1, l2, l3, l4, l5, l6, l7, l8, l9, l10, l11, l12, l13, l14] :=
    splitCharStr_joinChar '\n' _ (by simp)
      (fun l hlm => not_mem_of_strHasChar_false l '\n' (hl l hlm).2.2.2)
  have hmapid :
      List.map pyStrip [l0, l1, l2, l3, l4, l5, l6, l7, l8, l9, l10, l11, l12, l13, l14] =
        List.map id [l0, l1, l2, l3, l4, l5, l6, l7, l8, l9, l10, l11, l12, l13, l14] :=
    List.map_congr_left (fun l hm => hstrip15 l hm)
  have hmapstrip :
      List.map pyStrip [l0, l1, l2, l3, l4, l5, l6, l7, l8, l9, l10, l11, l12, l13, l14] =
        [l0, l1, l2, l3, l4, l5, l6, l7, l8, l9, l10, l11, l12, l13, l14] := by
    rw [hmapid, List.map_id]
  have hfilter :
      List.filter (fun l => l ≠ "")
          [l0, l1, l2, l3, l4, l5, l6, l7, l8, l9, l10, l11, l12, l13, l14] =
        [l0, l1, l2, l3, l4, l5, l6, l7, l8, l9, l10, l11, l12, l13, l14] := by
    rw [List.filter_eq_self]
    intro a ha
    simpa using (hl a ha).1
  have hchain :
      ((splitCharStr '\n'
          (joinChar '\n' [l0, l1, l2, l3, l4, l5, l6, l7, l8, l9, l10, l11, l12, l13, l14])).map
        pyStrip).filter (· ≠ "") =
        [l0, l1, l2, l3, l4, l5, l6, l7, l8, l9, l10, l11, l12, l13, l14] := by
    rw [hsplit, hmapstrip, hfilter]
  have hrecon :
      MawbParser.reconLoop [l0, l1, l2, l3, l4, l5, l6, l7, l8, l9, l10, l11, l12, l13, l14] =
        [joinChar '\t' [l0, l1, l2, l3, l4], joinChar '\t' [l5, l6, l7, l8, l9],
          joinChar '\t' [l10, l11, l12, l13, l14]] := by
    simp +decide [MawbParser.reconLoop, MawbParser.reconLoopF, h4, h9, h14]
  have hlen :
      (((splitCharStr '\n'
          (joinChar '\n' [l0, l1, l2, l3, l4, l5, l6, l7, l8, l9, l10, l11, l12, l13, l14])).map
        pyStrip).filter (· ≠ "")).length > 1 := by
    rw [hchain]
    simp
  have hrecon_ne :
      MawbParser.reconLoop
        (((splitCharStr '\n'
            (joinChar '\n' [l0, l1, l2, l3, l4, l5, l6, l7, l8, l9, l10, l11, l12, l13, l14])).map
          pyStrip).filter (· ≠ "")) ≠ [] := by
    rw [hchain, hrecon]
    simp
  rw [parse_mawb_input_recon _ hstrip_text hne_text htab_text hlen hrecon_ne]
  rw [hchain, hrecon]
  have hsplit2 :
      splitCharStr '\n'
          (joinChar '\n' [joinChar '\t' [l0, l1, l2, l3, l4], joinChar '\t' [l5, l6, l7, l8, l9],
            joinChar '\t' [l10, l11, l12, l13, l14]]) =
        [joinChar '\t' [l0, l1, l2, l3, l4], joinChar '\t' [l5, l6, l7, l8, l9],
          joinChar '\t' [l10, l11, l12, l13, l14]] := by
    refine splitCharStr_joinChar '\n' _ (by simp) ?hgs
    intro g hg
    have hnl5 : ∀ (a5 b5 c5 d5 e5 : String),
        a5 ∈ [l0, l1, l2, l3, l4, l5, l6, l7, l8, l9, l10, l11, l12, l13, l14] →
        b5 ∈ [l0, l1, l2, l3, l4, l5, l6, l7, l8, l9, l10, l11, l12, l13, l14] →
        c5 ∈ [l0, l1, l2, l3, l4, l5, l6, l7, l8, l9, l10, l11, l12, l13, l14] →
        d5 ∈ [l0, l1, l2, l3, l4, l5, l6, l7, l8, l9, l10, l11, l12, l13, l14] →
        e5 ∈ [l0, l1, l2, l3, l4, l5, l6, l7, l8, l9, l10, l11, l12, l13, l14] →
        ('\n' : Char) ∉ (joinChar '\t' [a5, b5, c5, d5, e5]).toList := by
      intro a5 b5 c5 d5 e5 ha hb hc hd he
      rw [joinChar_toList]
      refine not_mem_joinParts '\t' '\n' _ (by decide) ?hin
      intro gg hgg
      simp only [List.map_cons, List.map_nil, List.mem_cons, List.not_mem_nil, or_false]
        at hgg
      rcases hgg with rfl | rfl | rfl | rfl | rfl
      · exact not_mem_of_strHasChar_false a5 '\n' (hl a5 ha).2.2.2
      · exact not_mem_of_strHasChar_false b5 '\n' (hl b5 hb).2.2.2
      · exact not_mem_of_strHasChar_false c5 '\n' (hl c5 hc).2.2.2
      · exact not_mem_of_strHasChar_false d5 '\n' (hl d5 hd).2.2.2
      · exact not_mem_of_strHasChar_false e5 '\n' (hl e5 he).2.2.2
    simp only [List.mem_cons, List.not_mem_nil, or_false] at hg
    rcases hg with rfl | rfl | rfl
    · exact hnl5 l0 l1 l2 l3 l4 (by simp) (by simp) (by simp) (by simp) (by simp)
    · exact hnl5 l5 l6 l7 l8 l9 (by simp) (by simp) (by simp) (by simp) (by simp)
    · exact hnl5 l10 l11 l12 l13 l14 (by simp) (by simp) (by simp) (by simp) (by simp)
  rw [hsplit2]
  rw [runLines_five_group l0 l1 l2 l3 l4 _
    (fun l hm => hstrip15 l (List.mem_of_mem_take
      (show l ∈ List.take 5 [l0, l1, l2, l3, l4, l5, l6, l7, l8, l9, l10, l11, l12, l13, l14] from hm)))
    (hl l0 (List.mem_of_mem_take (show l0 ∈ List.take 5 [l0, l1, l2, l3, l4, l5, l6, l7, l8, l9, l10, l11, l12, l13, l14] from
      List.mem_cons_self l0 [l1, l2, l3, l4]))).1
    (hl l4 (List.mem_of_mem_take (show l4 ∈ List.take 5 [l0, l1, l2, l3, l4, l5, l6, l7, l8, l9, l10, l11, l12, l13, l14] from
      lastFiveMem l0 l1 l2 l3 l4))).1
    (fun l hm => (hl l (List.mem_of_mem_take
      (show l ∈ List.take 5 [l0, l1, l2, l3, l4, l5, l6, l7, l8, l9, l10, l11, l12, l13, l14] from hm))).2.2.1) h4]
  rw [runLines_five_group l5 l6 l7 l8 l9 _
    (fun l hm => hstrip15 l (List.mem_of_mem_drop (List.mem_of_mem_take
      (show l ∈ List.take 5 (List.drop 5 [l0, l1, l2, l3, l4, l5, l6, l7, l8, l9, l10, l11, l12, l13, l14]) from hm))))
    (hl l5 (List.mem_of_mem_drop (List.mem_of_mem_take
      (show l5 ∈ List.take 5 (List.drop 5 [l0, l1, l2, l3, l4, l5, l6, l7, l8, l9, l10, l11, l12, l13, l14]) from
        List.mem_cons_self l5 [l6, l7, l8, l9])))).1
    (hl l9 (List.mem_of_mem_drop (List.mem_of_mem_take
      (show l9 ∈ List.take 5 (List.drop 5 [l0, l1, l2, l3, l4, l5, l6, l7, l8, l9, l10, l11, l12, l13, l14]) from
        lastFiveMem l5 l6 l7 l8 l9)))).1
    (fun l hm => (hl l (List.mem_of_mem_drop (List.mem_of_mem_take
      (show l ∈ List.take 5 (List.drop 5 [l0, l1, l2, l3, l4, l5, l6, l7, l8, l9, l10, l11, l12, l13, l14]) from hm)))).2.2.1) h9]
  rw [runLines_five_group l10 l11 l12 l13 l14 []
    (fun l hm => hstrip15 l (List.mem_of_mem_drop
      (show l ∈ List.drop 10 [l0, l1, l2, l3, l4, l5, l6, l7, l8, l9, l10, l11, l12, l13, l14] from hm)))
    (hl l10 (List.mem_of_mem_drop (show l10 ∈ List.drop 10 [l0, l1, l2, l3, l4, l5, l6, l7, l8, l9, l10, l11, l12, l13, l14] from
      List.mem_cons_self l10 [l11, l12, l13, l14]))).1
    (hl l14 (List.mem_of_mem_drop (show l14 ∈ List.drop 10 [l0, l1, l2, l3, l4, l5, l6, l7, l8, l9, l10, l11, l12, l13, l14] from
      lastFiveMem l10 l11 l12 l13 l14))).1
    (fun l hm => (hl l (List.mem_of_mem_drop
      (show l ∈ List.drop 10 [l0, l1, l2, l3, l4, l5, l6, l7, l8, l9, l10, l11, l12, l13, l14] from hm))).2.2.1) h14]
  rfl

/-- Witness for the amended C8 statement: a concrete tab-free vertical
paste of three 5-tuple groups yields exactly the three expected items. -/
theorem C8_amended_witness :
    MawbParser.parse_mawb_input
        (joinChar '\n' ["ORD", "MZZ", "BKR", "4250", "23594731221",
          "JFK", "ACME", "RUSH", "4251", "23594731222",
          "LAX", "BETA", "SLOW", "4252", "23594731223"]) =
      [{ mawb := "23594731221", airport_code := some "ORD", customer := some "MZZ",
         checkbook_hawbs := some "4250" },
       { mawb := "23594731222", airport_code := some "JFK", customer := some "ACME",
         checkbook_hawbs := some "4251" },
       { mawb := "23594731223", airport_code := some "LAX", customer := some "BETA",
         checkbook_hawbs := some "4252" }] :=
  C8_amended "ORD" "MZZ" "BKR" "4250" "23594731221" "JFK" "ACME" "RUSH" "4251"
    "23594731222" "LAX" "BETA" "SLOW" "4252" "23594731223"
    (by decide) (by decide) (by decide) (by decide)
